import Mathlib

/-!
# Loctek passthrough keypad bridge

A shallow embedding of `components/loctekmotion_passthrough_keypad`
(`loctek_passthrough_keypad.h` / `.cpp`): the component sits between the desk
controller's UART and the keypad's UART, relays bytes in both directions,
originates its own command frames toward the desk, holds "PIN 20" high for a
window around each command, sniffs keypad bytes to track the cover operation,
and re-sends the wake frame periodically.

Conventions of the embedding

* A byte (`uint8_t`) is a `Nat`; no arithmetic is done on bytes.
* A `uart::UARTComponent` is a pair of byte lists: `rx`, the bytes available
  for reading (oldest first), and `tx`, every byte written so far (oldest
  first).  `flush()` has no effect on either list.
* `millis()` is the 32-bit millisecond clock: at true time `t` (milliseconds
  since boot, unbounded) it reads `t % 2^32`.  `uint32_t` subtraction is
  subtraction modulo `2^32`.  One call of an operation reads the clock at one
  instant `t`.
* The member pointers `desk_uart_` and `pin20_pin_` are dereferenced without a
  guard on every path, so they are always present in the state; `keypad_uart_`,
  `m_button_`, `wake_up_switch_` and the `button` of a preset may be `nullptr`
  (`none`).  Dereferencing a null pointer makes the operation return `none`.
* Collaborator objects of the host framework are kept by the state they
  expose: the output level of the pin, the state the wake switch reads (a
  switch that was never published reads off), the operation the cover was
  last published with, and the callbacks registered on buttons and on the
  switch.
* `publish_state` of the wake switch follows the framework's `Switch`: a
  publish of the state the switch already reads is dropped; any other publish
  records the state and, before it returns, runs the callbacks added with
  `add_on_state_callback`, in the order they were added.  The only such
  callbacks are the lambdas added by `setup`, which call `send_wake_up()` when
  the state is on, so `send_wake_up` can re-enter itself through its own
  publish.  No callback is added on the cover.
* Button presses and changes of the wake switch made from outside the
  component are host events (`press`, `wake_up_switch_turned`).
* Logging (`ESP_LOG*`) is dropped.
-/

namespace LoctekPassthroughKeypad

/-! ## Command payloads (`loctek_passthrough_keypad.h`, lines 13-21) -/

def CMD_WAKE_UP : List Nat := [0x9b, 0x06, 0x02, 0x00, 0x00, 0x6c, 0xa1, 0x9d]
def CMD_UP : List Nat := [0x9b, 0x06, 0x02, 0x01, 0x00, 0xfc, 0xa0, 0x9d]
def CMD_DOWN : List Nat := [0x9b, 0x06, 0x02, 0x02, 0x00, 0x0c, 0xa0, 0x9d]
def CMD_STOP : List Nat := [0x9b, 0x06, 0x02, 0x20, 0x00, 0xac, 0xb8, 0x9d]
def CMD_PRESET_1 : List Nat := [0x9b, 0x06, 0x02, 0x04, 0x00, 0xac, 0xa3, 0x9d]
def CMD_PRESET_2 : List Nat := [0x9b, 0x06, 0x02, 0x08, 0x00, 0xac, 0xa6, 0x9d]
def CMD_PRESET_3_STAND : List Nat := [0x9b, 0x06, 0x02, 0x10, 0x00, 0xac, 0xac, 0x9d]
def CMD_PRESET_4_SIT : List Nat := [0x9b, 0x06, 0x02, 0x00, 0x01, 0xac, 0x60, 0x9d]

/-! ## Clock -/

/-- The modulus of `uint32_t`, `2^32`. -/
def UINT32_MOD : Nat := 4294967296

/-- The reading of `millis()` at true time `t` (milliseconds since boot). -/
def millis (t : Nat) : Nat := t % UINT32_MOD

/-- The `uint32_t` difference `a - b`. -/
def sub_u32 (a b : Nat) : Nat := (a % UINT32_MOD + UINT32_MOD - b % UINT32_MOD) % UINT32_MOD

/-! ## Data model -/

/-- The `cover::CoverOperation` of the cover this component is. -/
inductive CoverOperation where
  | idle
  | opening
  | closing
  deriving DecidableEq, Repr

/-- A serial endpoint: bytes available for reading and bytes written. -/
structure UART where
  rx : List Nat
  tx : List Nat
  deriving DecidableEq, Repr

/-- The member struct `PresetButton`: a button pointer and its payload. -/
structure PresetButton where
  button : Option Nat
  command_payload : List Nat
  deriving DecidableEq, Repr

/-- The body of a press callback registered by `setup`: the M button's lambda
calls `send_stop()`, a preset's lambda calls `send_command` with the payload
it captured by value. -/
inductive PressCallback where
  | stop
  | command (command_payload : List Nat)
  deriving DecidableEq, Repr

/-- The state of the component and of the collaborators it drives. -/
structure Bridge where
  /-- The endpoint `desk_uart_`. -/
  desk_uart_ : UART
  /-- The endpoint `keypad_uart_`, `none` when it is `nullptr`. -/
  keypad_uart_ : Option UART
  /-- Output level last written to `pin20_pin_`. -/
  pin20_level : Bool
  /-- The pointer `m_button_`. -/
  m_button_ : Option Nat
  /-- The pointer `wake_up_switch_`; `some b` is a switch that reads `b`. -/
  wake_up_switch_ : Option Bool
  last_pin20_high_time_ : Nat
  pin20_active_ : Bool
  desk_moving_ : Bool
  preset_buttons_ : List PresetButton
  /-- The cover's `current_operation`. -/
  current_operation : CoverOperation
  /-- The operations handed to the frontend by `publish_state()`, oldest first. -/
  published_operations : List CoverOperation
  /-- The function-local `static uint32_t last_wake_up_send_time` of `loop`. -/
  last_wake_up_send_time : Nat
  /-- Callbacks added with `add_on_press_callback`, with the button they are on. -/
  on_press_callbacks : List (Nat × PressCallback)
  /-- Number of callbacks added to the wake switch with `add_on_state_callback`. -/
  on_state_callbacks : Nat
  deriving DecidableEq, Repr

/-- The component as constructed (member initialisers of the header, a cover
that starts idle, `last_wake_up_send_time = 0`), wired to two endpoints. -/
def constructed (desk : UART) (keypad : Option UART) : Bridge :=
  { desk_uart_ := desk
    keypad_uart_ := keypad
    pin20_level := false
    m_button_ := none
    wake_up_switch_ := none
    last_pin20_high_time_ := 0
    pin20_active_ := false
    desk_moving_ := false
    preset_buttons_ := []
    current_operation := CoverOperation.idle
    published_operations := []
    last_wake_up_send_time := 0
    on_press_callbacks := []
    on_state_callbacks := 0 }

/-! ## Collaborator operations -/

/-- The call `uart->write(byte)`. -/
def UART.write (u : UART) (byte : Nat) : UART := { u with tx := u.tx ++ [byte] }

/-- The call `uart->write_bytes(data)`. -/
def UART.write_bytes (u : UART) (data : List Nat) : UART := { u with tx := u.tx ++ data }

/-- The calls `set_current_operation(op); publish_state();` of the cover. -/
def set_and_publish_operation (op : CoverOperation) (s : Bridge) : Bridge :=
  { s with current_operation := op, published_operations := s.published_operations ++ [op] }

/-- The lambda that `setup` adds to the wake switch (lines 25-31), given what the
call `send_wake_up()` in it does: `if (state) send_wake_up();`. -/
def wake_up_switch_callback (send : Bridge → Bridge) (state : Bool) (s : Bridge) : Bridge :=
  if state = true then send s else s

/-- The guarded call `if (wake_up_switch_ != nullptr) wake_up_switch_->publish_state(state)`,
given what the call `send_wake_up()` in the state callbacks does.  A publish of
the state the switch already reads is dropped; otherwise the state is recorded
and each state callback runs with it. -/
def publish_wake_up_switch (state : Bool) (send : Bridge → Bridge) (s : Bridge) : Bridge :=
  match s.wake_up_switch_ with
  | none => s
  | some reads =>
    if reads = state then s
    else
      let s1 := { s with wake_up_switch_ := some state }
      Nat.iterate (wake_up_switch_callback send state) s1.on_state_callbacks s1

/-! ## Command transmission (`.cpp`, lines 114-160) -/

def send_command (t : Nat) (command : List Nat) (s : Bridge) : Bridge :=
  { s with
    pin20_level := true
    pin20_active_ := true
    last_pin20_high_time_ := millis t
    desk_uart_ := s.desk_uart_.write_bytes command }

def send_up (t : Nat) (s : Bridge) : Bridge :=
  { set_and_publish_operation CoverOperation.opening (send_command t CMD_UP s) with
    desk_moving_ := true }

def send_down (t : Nat) (s : Bridge) : Bridge :=
  { set_and_publish_operation CoverOperation.closing (send_command t CMD_DOWN s) with
    desk_moving_ := true }

def send_stop (t : Nat) (s : Bridge) : Bridge :=
  { set_and_publish_operation CoverOperation.idle (send_command t CMD_STOP s) with
    desk_moving_ := false }

/-- The method `send_wake_up` with the nesting of its re-entrant calls bounded:
`send_command(CMD_WAKE_UP)`, then the guarded publish of on, whose state
callbacks call `send_wake_up()` again, one level deeper.  A nested call finds
the switch on, so its own publish is dropped and the nesting never exceeds two
levels (`send_wake_up_fuel_enough`). -/
def send_wake_up_fuel : Nat → Nat → Bridge → Bridge
  | 0, _, s => s
  | fuel + 1, t, s =>
    publish_wake_up_switch true (send_wake_up_fuel fuel t) (send_command t CMD_WAKE_UP s)

def send_wake_up (t : Nat) (s : Bridge) : Bridge :=
  send_wake_up_fuel 2 t s

def add_preset_button (button : Option Nat) (command_payload : List Nat) (s : Bridge) : Bridge :=
  { s with
    preset_buttons_ :=
      s.preset_buttons_ ++ [{ button := button, command_payload := command_payload }] }

/-! ## Relay (`.cpp`, lines 162-206) -/

/-- The `while (desk_uart_->available())` loop, by recursion on the bytes
still available: each pass reads the oldest byte and, when a keypad endpoint
is set, writes it there. -/
def desk_relay : List Nat → Bridge → Bridge
  | [], s => s
  | byte :: pending, s =>
    let s1 := { s with desk_uart_ := { s.desk_uart_ with rx := pending } }
    let s2 :=
      match s1.keypad_uart_ with
      | some keypad => { s1 with keypad_uart_ := some (keypad.write byte) }
      | none => s1
    desk_relay pending s2

def handle_desk_uart_data (s : Bridge) : Bridge :=
  desk_relay s.desk_uart_.rx s

/-- The byte test inside the keypad loop (lines 192-204). -/
def observe_keypad_byte (byte : Nat) (s : Bridge) : Bridge :=
  if byte = 0x01 then
    { set_and_publish_operation CoverOperation.opening s with desk_moving_ := true }
  else if byte = 0x02 then
    { set_and_publish_operation CoverOperation.closing s with desk_moving_ := true }
  else if byte = 0x20 then
    { set_and_publish_operation CoverOperation.idle s with desk_moving_ := false }
  else s

/-- The `while (keypad_uart_->available())` loop for a keypad endpoint
`keypad`, by recursion on the bytes still available: each pass reads the
oldest byte, writes it to the desk endpoint and tests it. -/
def keypad_relay : List Nat → UART → Bridge → Bridge
  | [], _, s => s
  | byte :: pending, keypad, s =>
    let keypad1 := { keypad with rx := pending }
    let s1 := { s with keypad_uart_ := some keypad1 }
    let s2 := { s1 with desk_uart_ := s1.desk_uart_.write byte }
    keypad_relay pending keypad1 (observe_keypad_byte byte s2)

/-- Returns `none` when `keypad_uart_` is `nullptr`: the loop condition
dereferences it without a guard. -/
def handle_keypad_uart_data (s : Bridge) : Option Bridge :=
  match s.keypad_uart_ with
  | none => none
  | some keypad => some (keypad_relay keypad.rx keypad s)

/-! ## The tick (`.cpp`, lines 42-67) -/

/-- The "PIN 20 Management" block of `loop` (lines 49-57). -/
def pin20_management (t : Nat) (s : Bridge) : Bridge :=
  if s.pin20_active_ = true ∧ sub_u32 (millis t) s.last_pin20_high_time_ > 1000 then
    publish_wake_up_switch false (send_wake_up t)
      { s with pin20_level := false, pin20_active_ := false }
  else s

/-- The periodic wake-up block of `loop` (lines 59-66). -/
def keep_alive (t : Nat) (s : Bridge) : Bridge :=
  if sub_u32 (millis t) s.last_wake_up_send_time > 5000 then
    { send_wake_up t s with last_wake_up_send_time := millis t }
  else s

def loop (t : Nat) (s : Bridge) : Option Bridge :=
  match handle_keypad_uart_data (handle_desk_uart_data s) with
  | none => none
  | some s1 => some (keep_alive t (pin20_management t s1))

/-! ## Setup and trigger events (`.cpp`, lines 10-40) -/

/-- The loop of `setup` over `preset_buttons_` (lines 35-39); `none` when a
preset's button is `nullptr`, which the loop dereferences. -/
def register_preset_callbacks : List PresetButton → Bridge → Option Bridge
  | [], s => some s
  | preset :: rest, s =>
    match preset.button with
    | none => none
    | some button =>
      register_preset_callbacks rest
        { s with on_press_callbacks :=
            s.on_press_callbacks ++ [(button, PressCallback.command preset.command_payload)] }

def setup (s : Bridge) : Option Bridge :=
  let s1 := { s with pin20_level := false }
  let s2 :=
    match s1.m_button_ with
    | some m => { s1 with on_press_callbacks := s1.on_press_callbacks ++ [(m, PressCallback.stop)] }
    | none => s1
  let s3 :=
    match s2.wake_up_switch_ with
    | some _ => { s2 with on_state_callbacks := s2.on_state_callbacks + 1 }
    | none => s2
  register_preset_callbacks s3.preset_buttons_ s3

/-- Runs the body of one press callback. -/
def run_press_callback (t : Nat) (cb : PressCallback) (s : Bridge) : Bridge :=
  match cb with
  | PressCallback.stop => send_stop t s
  | PressCallback.command command_payload => send_command t command_payload s

/-- The host event "button `button` was pressed" at time `t`: the callbacks
added on that button run in the order they were added. -/
def press (t : Nat) (button : Nat) (s : Bridge) : Bridge :=
  ((s.on_press_callbacks.filter (fun r => r.1 = button)).map Prod.snd).foldl
    (fun st cb => run_press_callback t cb st) s

/-- The host event "the wake switch was turned to `state`" at time `t`: the
switch publishes the state, which records it and runs the state callbacks
added by `setup`. -/
def wake_up_switch_turned (t : Nat) (state : Bool) (s : Bridge) : Bridge :=
  publish_wake_up_switch state (send_wake_up t) s

/-! ## Operation sequences -/

/-- An entry point of the component invoked by the host once `setup` has run:
a direct call of one of the `send_*` methods, a button press, a change of the
wake switch, or a pass of `loop`; each carries the time of the call. -/
inductive Operation where
  | send_command (t : Nat) (command : List Nat)
  | send_up (t : Nat)
  | send_down (t : Nat)
  | send_stop (t : Nat)
  | send_wake_up (t : Nat)
  | press (t : Nat) (button : Nat)
  | wake_up_switch_turned (t : Nat) (state : Bool)
  | tick (t : Nat)
  deriving DecidableEq, Repr

/-- Runs one operation; `none` when the pass of `loop` dereferences a null
keypad endpoint. -/
def Operation.run (op : Operation) (s : Bridge) : Option Bridge :=
  match op with
  | Operation.send_command t command => some (LoctekPassthroughKeypad.send_command t command s)
  | Operation.send_up t => some (LoctekPassthroughKeypad.send_up t s)
  | Operation.send_down t => some (LoctekPassthroughKeypad.send_down t s)
  | Operation.send_stop t => some (LoctekPassthroughKeypad.send_stop t s)
  | Operation.send_wake_up t => some (LoctekPassthroughKeypad.send_wake_up t s)
  | Operation.press t button => some (LoctekPassthroughKeypad.press t button s)
  | Operation.wake_up_switch_turned t state =>
    some (LoctekPassthroughKeypad.wake_up_switch_turned t state s)
  | Operation.tick t => loop t s

/-- Runs a sequence of operations, oldest first. -/
def run_operations : List Operation → Bridge → Option Bridge
  | [], s => some s
  | op :: rest, s =>
    match op.run s with
    | none => none
    | some s1 => run_operations rest s1

/-! ## Specification-side definitions and example states -/

/-- The press callbacks that the loop of `setup` adds for a list of presets
whose buttons are all set: one per preset, in list order. -/
def preset_callbacks (presets : List PresetButton) : List (Nat × PressCallback) :=
  presets.filterMap (fun p => p.button.map (fun b => (b, PressCallback.command p.command_payload)))

/-- A keypad endpoint with five bytes pending, three of them motion bytes. -/
def relay_example_keypad : UART := { rx := [0x01, 0x55, 0x20, 0x02, 0x9d], tx := [0x08] }

/-- A bridge with bytes pending on both endpoints and a wake switch. -/
def relay_example : Bridge :=
  { constructed { rx := [0x9b, 0x01, 0x02, 0x20], tx := [0x07] } (some relay_example_keypad) with
    wake_up_switch_ := some false }

/-- The last byte of a stream that is one of `0x01`, `0x02`, `0x20`, if any:
the byte the specification's "last-observed-wins" rule refers to. -/
def last_motion_byte (bytes : List Nat) : Option Nat :=
  (bytes.filter (fun b => b = 0x01 ∨ b = 0x02 ∨ b = 0x20)).getLast?

/-- The operation the specification assigns after a stream: decided by the
last motion byte, the prior operation when there is none. -/
def inferred_operation (prior : CoverOperation) (bytes : List Nat) : CoverOperation :=
  match last_motion_byte bytes with
  | none => prior
  | some b =>
    if b = 0x01 then CoverOperation.opening
    else if b = 0x02 then CoverOperation.closing
    else CoverOperation.idle

/-- A bridge with a keypad endpoint and a wake switch, nothing pending and
nothing sent: the component before `setup`. -/
def idle_bridge : Bridge :=
  { constructed { rx := [], tx := [] } (some { rx := [], tx := [] }) with
    wake_up_switch_ := some false }

/-- The state `setup` leaves `relay_example` in: the state callback is on the
wake switch. -/
def set_up_relay_example : Bridge := { relay_example with on_state_callbacks := 1 }

/-- A set-up bridge whose window was opened by `send_wake_up` at time 0 and never
closed: the wake switch reads on, and keypad bytes are pending. -/
def stale_window_bridge : Bridge := send_wake_up 0 set_up_relay_example

/-- A set-up bridge right after its periodic wake-up fired 500 ms before the
32-bit clock wraps: the window is open and both stored times are that reading. -/
def wrap_example : Bridge :=
  { send_wake_up 4294966796 set_up_relay_example with
    last_wake_up_send_time := millis 4294966796 }

/-- A component with one preset on button 1, before `setup`. -/
def preset_bridge : Bridge := add_preset_button (some 1) CMD_PRESET_1 idle_bridge

/-- A sequence of operations that opens the window, lets it lapse, and lets the
periodic wake-up reopen it. -/
def example_operations : List Operation :=
  [Operation.send_up 10, Operation.tick 500, Operation.press 600 1, Operation.tick 2000,
    Operation.tick 7000, Operation.send_wake_up 7100, Operation.tick 9000]

/-- A bridge that is opening, with the whole `CMD_PRESET_1` frame pending on the
keypad endpoint. -/
def preset_frame_bridge : Bridge :=
  { constructed { rx := [], tx := [] } (some { rx := CMD_PRESET_1, tx := [] }) with
    current_operation := CoverOperation.opening }

/-- `n` copies of a frame, one after the other. -/
def repeated : Nat → List Nat → List Nat
  | 0, _ => []
  | n + 1, frame => frame ++ repeated n frame

/-- The number of re-entrant calls of `send_wake_up` that one call makes: one
per state callback when the switch reads off, none when it reads on or is not
set. -/
def wake_repeats (s : Bridge) : Nat :=
  match s.wake_up_switch_ with
  | some false => s.on_state_callbacks
  | _ => 0

/-! ## Relay lemmas -/

theorem desk_relay_eq (bytes : List Nat) (s : Bridge) :
    desk_relay bytes s =
      { s with
        desk_uart_ := { s.desk_uart_ with rx := if bytes = [] then s.desk_uart_.rx else [] }
        keypad_uart_ := s.keypad_uart_.map (fun k => { k with tx := k.tx ++ bytes }) } := by
  induction bytes generalizing s with
  | nil => cases s with | mk d k => cases k <;> simp [desk_relay]
  | cons b rest ih =>
    rw [desk_relay]
    simp only [ih]
    cases hk : s.keypad_uart_ <;> simp [hk, UART.write]

theorem handle_desk_uart_data_eq (s : Bridge) :
    handle_desk_uart_data s =
      { s with
        desk_uart_ := { s.desk_uart_ with rx := [] }
        keypad_uart_ := s.keypad_uart_.map (fun k => { k with tx := k.tx ++ s.desk_uart_.rx }) } := by
  rw [handle_desk_uart_data, desk_relay_eq]
  by_cases h : s.desk_uart_.rx = [] <;> simp [h]

/-- The fields of the state that the byte test of the keypad loop can touch
are the cover operation, its publication log and `desk_moving_`. -/
theorem observe_keypad_byte_frame (byte : Nat) (s : Bridge) :
    (observe_keypad_byte byte s).desk_uart_ = s.desk_uart_ ∧
    (observe_keypad_byte byte s).keypad_uart_ = s.keypad_uart_ ∧
    (observe_keypad_byte byte s).pin20_level = s.pin20_level ∧
    (observe_keypad_byte byte s).m_button_ = s.m_button_ ∧
    (observe_keypad_byte byte s).wake_up_switch_ = s.wake_up_switch_ ∧
    (observe_keypad_byte byte s).last_pin20_high_time_ = s.last_pin20_high_time_ ∧
    (observe_keypad_byte byte s).pin20_active_ = s.pin20_active_ ∧
    (observe_keypad_byte byte s).preset_buttons_ = s.preset_buttons_ ∧
    (observe_keypad_byte byte s).last_wake_up_send_time = s.last_wake_up_send_time ∧
    (observe_keypad_byte byte s).on_press_callbacks = s.on_press_callbacks ∧
    (observe_keypad_byte byte s).on_state_callbacks = s.on_state_callbacks := by
  unfold observe_keypad_byte set_and_publish_operation
  split_ifs <;> simp

theorem keypad_relay_frame (bytes : List Nat) (keypad : UART) (s : Bridge) :
    (keypad_relay bytes keypad s).desk_uart_ =
        { s.desk_uart_ with tx := s.desk_uart_.tx ++ bytes } ∧
    (keypad_relay bytes keypad s).keypad_uart_ =
        (if bytes = [] then s.keypad_uart_ else some { keypad with rx := [] }) ∧
    (keypad_relay bytes keypad s).pin20_level = s.pin20_level ∧
    (keypad_relay bytes keypad s).m_button_ = s.m_button_ ∧
    (keypad_relay bytes keypad s).wake_up_switch_ = s.wake_up_switch_ ∧
    (keypad_relay bytes keypad s).last_pin20_high_time_ = s.last_pin20_high_time_ ∧
    (keypad_relay bytes keypad s).pin20_active_ = s.pin20_active_ ∧
    (keypad_relay bytes keypad s).preset_buttons_ = s.preset_buttons_ ∧
    (keypad_relay bytes keypad s).last_wake_up_send_time = s.last_wake_up_send_time ∧
    (keypad_relay bytes keypad s).on_press_callbacks = s.on_press_callbacks ∧
    (keypad_relay bytes keypad s).on_state_callbacks = s.on_state_callbacks := by
  induction bytes generalizing keypad s with
  | nil => simp [keypad_relay]
  | cons b rest ih =>
    rw [keypad_relay]
    obtain ⟨h1, h2, h3, h4, h5, h6, h7, h8, h9, h10, h11⟩ :=
      ih { keypad with rx := rest }
        (observe_keypad_byte b
          { s with
            keypad_uart_ := some { keypad with rx := rest }
            desk_uart_ := s.desk_uart_.write b })
    obtain ⟨g1, g2, g3, g4, g5, g6, g7, g8, g9, g10, g11⟩ :=
      observe_keypad_byte_frame b
          { s with
            keypad_uart_ := some { keypad with rx := rest }
            desk_uart_ := s.desk_uart_.write b }
    simp only [h1, h2, h3, h4, h5, h6, h7, h8, h9, h10, h11,
      g1, g2, g3, g4, g5, g6, g7, g8, g9, g10, g11]
    by_cases hr : rest = [] <;> simp [hr, UART.write]

/-! ## Motion inference -/

theorem last_motion_byte_cons (b : Nat) (rest : List Nat) :
    last_motion_byte (b :: rest) =
      match last_motion_byte rest with
      | some x => some x
      | none => if b = 0x01 ∨ b = 0x02 ∨ b = 0x20 then some b else none := by
  unfold last_motion_byte
  by_cases hb : b = 0x01 ∨ b = 0x02 ∨ b = 0x20
  · rw [List.filter_cons_of_pos (by simpa using hb)]
    cases hf : List.filter (fun b => decide (b = 0x01 ∨ b = 0x02 ∨ b = 0x20)) rest with
    | nil => simp [hb]
    | cons x xs =>
      rw [List.getLast?_cons_cons]
      cases hl : (x :: xs).getLast? with
      | none => simp at hl
      | some y => rfl
  · rw [List.filter_cons_of_neg (by simpa using hb)]
    cases hl : (List.filter (fun b => decide (b = 0x01 ∨ b = 0x02 ∨ b = 0x20)) rest).getLast? <;>
      simp [hb]

theorem observe_keypad_byte_operation (byte : Nat) (s : Bridge) :
    (observe_keypad_byte byte s).current_operation =
      if byte = 0x01 then CoverOperation.opening
      else if byte = 0x02 then CoverOperation.closing
      else if byte = 0x20 then CoverOperation.idle
      else s.current_operation := by
  unfold observe_keypad_byte set_and_publish_operation
  split_ifs <;> rfl

theorem keypad_relay_operation (bytes : List Nat) (keypad : UART) (s : Bridge) :
    (keypad_relay bytes keypad s).current_operation =
      inferred_operation s.current_operation bytes := by
  induction bytes generalizing keypad s with
  | nil => simp [keypad_relay, inferred_operation, last_motion_byte]
  | cons b rest ih =>
    rw [keypad_relay, ih, observe_keypad_byte_operation]
    unfold inferred_operation
    rw [last_motion_byte_cons]
    cases hl : last_motion_byte rest with
    | some x => rfl
    | none =>
      by_cases h1 : b = 0x01
      · simp [h1]
      · by_cases h2 : b = 0x02
        · simp [h2]
        · by_cases h3 : b = 0x20
          · simp [h3]
          · simp [h1, h2, h3]

theorem last_motion_byte_eq_none (bytes : List Nat) :
    last_motion_byte bytes = none ↔ ∀ b ∈ bytes, b ≠ 0x01 ∧ b ≠ 0x02 ∧ b ≠ 0x20 := by
  unfold last_motion_byte
  rw [List.getLast?_eq_none_iff, List.filter_eq_nil_iff]
  constructor
  · intro h b hb
    have := h b hb
    simpa using this
  · intro h b hb
    have := h b hb
    simpa using this

/-! ## Clock arithmetic -/

theorem sub_u32_millis (t0 t : Nat) (h1 : t0 ≤ t) (h2 : t - t0 < UINT32_MOD) :
    sub_u32 (millis t) (millis t0) = t - t0 := by
  unfold sub_u32 millis UINT32_MOD at *
  omega

theorem sub_u32_self (now : Nat) : sub_u32 (millis now) (millis now) = 0 := by
  unfold sub_u32 millis UINT32_MOD
  omega

theorem sub_u32_millis_add (t0 d : Nat) (h : d < UINT32_MOD) :
    sub_u32 (millis (t0 + d)) (millis t0) = d := by
  rw [sub_u32_millis t0 (t0 + d) (Nat.le_add_right _ _) (by omega)]
  omega

/-! ## The wake switch -/

theorem wake_up_switch_callback_off_iterate (send : Bridge → Bridge) (n : Nat) (s : Bridge) :
    Nat.iterate (wake_up_switch_callback send false) n s = s := by
  induction n with
  | zero => rfl
  | succ n ih =>
    rw [Function.iterate_succ_apply]
    exact ih

theorem publish_wake_up_switch_off (send : Bridge → Bridge) (s : Bridge) :
    publish_wake_up_switch false send s =
      { s with wake_up_switch_ := s.wake_up_switch_.map (fun _ => false) } := by
  unfold publish_wake_up_switch
  cases h : s.wake_up_switch_ with
  | none => cases s; simp_all
  | some reads =>
    cases reads
    · cases s; simp_all
    · simp [wake_up_switch_callback_off_iterate]

theorem send_command_iterate (t n : Nat) (command : List Nat) (s : Bridge)
    (h1 : s.pin20_level = true) (h2 : s.pin20_active_ = true)
    (h3 : s.last_pin20_high_time_ = millis t) :
    Nat.iterate (send_command t command) n s =
      { s with desk_uart_ :=
        { s.desk_uart_ with tx := s.desk_uart_.tx ++ repeated n command } } := by
  induction n generalizing s with
  | zero => cases s; simp [repeated]
  | succ n ih =>
    rw [Function.iterate_succ_apply, ih _ rfl rfl rfl]
    cases s
    simp_all [send_command, UART.write_bytes, repeated]

theorem send_wake_up_fuel_nested (fuel t : Nat) (s : Bridge)
    (h : s.wake_up_switch_ = some true) :
    send_wake_up_fuel (fuel + 1) t s = send_command t CMD_WAKE_UP s := by
  rw [send_wake_up_fuel]
  unfold publish_wake_up_switch
  have : (send_command t CMD_WAKE_UP s).wake_up_switch_ = some true := h
  simp [this]

theorem wake_up_switch_callback_on_iterate (fuel t n : Nat) (s : Bridge)
    (h : s.wake_up_switch_ = some true) :
    Nat.iterate (wake_up_switch_callback (send_wake_up_fuel (fuel + 1) t) true) n s =
      Nat.iterate (send_command t CMD_WAKE_UP) n s := by
  induction n generalizing s with
  | zero => rfl
  | succ n ih =>
    rw [Function.iterate_succ_apply, Function.iterate_succ_apply]
    have hc : wake_up_switch_callback (send_wake_up_fuel (fuel + 1) t) true s =
        send_command t CMD_WAKE_UP s := by
      simp [wake_up_switch_callback, send_wake_up_fuel_nested fuel t s h]
    rw [hc]
    exact ih _ h

/-- The method `send_wake_up` in closed form, for every nesting bound of at
least two: the pin goes high, the window opens at the clock reading, a wake
switch reads on, and the desk output gains the wake frame once for the call
itself and once more for each re-entrant call. -/
theorem send_wake_up_fuel_eq (fuel t : Nat) (s : Bridge) :
    send_wake_up_fuel (fuel + 2) t s =
      { s with
        pin20_level := true
        pin20_active_ := true
        last_pin20_high_time_ := millis t
        wake_up_switch_ := s.wake_up_switch_.map (fun _ => true)
        desk_uart_ :=
          { s.desk_uart_ with
            tx := s.desk_uart_.tx ++ CMD_WAKE_UP ++ repeated (wake_repeats s) CMD_WAKE_UP } } := by
  rw [send_wake_up_fuel]
  unfold publish_wake_up_switch
  cases h : s.wake_up_switch_ with
  | none =>
    have : (send_command t CMD_WAKE_UP s).wake_up_switch_ = none := h
    simp [this, wake_repeats, h, repeated, send_command, UART.write_bytes]
  | some reads =>
    have hsw : (send_command t CMD_WAKE_UP s).wake_up_switch_ = some reads := h
    cases reads with
    | true =>
      simp [hsw, wake_repeats, h, repeated, send_command, UART.write_bytes]
    | false =>
      simp only [hsw]
      rw [if_neg (by decide)]
      rw [wake_up_switch_callback_on_iterate fuel t _ _ rfl,
        send_command_iterate t _ _ _ rfl rfl rfl]
      simp [wake_repeats, h, send_command, UART.write_bytes]

/-- Two levels of nesting are enough: a larger bound gives the same result. -/
theorem send_wake_up_fuel_enough (fuel t : Nat) (s : Bridge) :
    send_wake_up_fuel (fuel + 2) t s = send_wake_up t s := by
  rw [send_wake_up, send_wake_up_fuel_eq fuel t s, send_wake_up_fuel_eq 0 t s]

/-- The method `send_wake_up` satisfies the equation of its source text:
`send_command(CMD_WAKE_UP)` followed by the guarded publish of on, whose state
callbacks call `send_wake_up` itself. -/
theorem send_wake_up_unfold (t : Nat) (s : Bridge) :
    send_wake_up t s =
      publish_wake_up_switch true (send_wake_up t) (send_command t CMD_WAKE_UP s) := by
  rw [← send_wake_up_fuel_enough 1 t s]
  rfl

/-- On a bridge that `setup` has given one state callback, with the wake switch
reading off, one call of `send_wake_up` sends the wake frame twice: once itself
and once from the callback that its publish of on runs. -/
theorem send_wake_up_twice (t : Nat) (s : Bridge)
    (h1 : s.wake_up_switch_ = some false) (h2 : s.on_state_callbacks = 1) :
    (send_wake_up t s).desk_uart_.tx = s.desk_uart_.tx ++ CMD_WAKE_UP ++ CMD_WAKE_UP := by
  rw [send_wake_up, send_wake_up_fuel_eq 0 t s]
  simp [wake_repeats, h1, h2, repeated]

theorem send_wake_up_fields (t : Nat) (s : Bridge) :
    (send_wake_up t s).desk_uart_ =
      { s.desk_uart_ with
        tx := s.desk_uart_.tx ++ CMD_WAKE_UP ++ repeated (wake_repeats s) CMD_WAKE_UP } ∧
    (send_wake_up t s).pin20_level = true ∧
    (send_wake_up t s).pin20_active_ = true ∧
    (send_wake_up t s).last_pin20_high_time_ = millis t ∧
    (send_wake_up t s).wake_up_switch_ = s.wake_up_switch_.map (fun _ => true) ∧
    (send_wake_up t s).current_operation = s.current_operation ∧
    (send_wake_up t s).last_wake_up_send_time = s.last_wake_up_send_time := by
  rw [send_wake_up, send_wake_up_fuel_eq 0 t s]
  exact ⟨rfl, rfl, rfl, rfl, rfl, rfl, rfl⟩

/-! ## Tick lemmas -/

theorem pin20_management_level (t : Nat) (s : Bridge) :
    (pin20_management t s).pin20_level =
      if s.pin20_active_ = true ∧ sub_u32 (millis t) s.last_pin20_high_time_ > 1000 then false
      else s.pin20_level := by
  unfold pin20_management
  split_ifs <;> [skip; rfl]
  rw [publish_wake_up_switch_off]

theorem pin20_management_active (t : Nat) (s : Bridge) :
    (pin20_management t s).pin20_active_ =
      if s.pin20_active_ = true ∧ sub_u32 (millis t) s.last_pin20_high_time_ > 1000 then false
      else s.pin20_active_ := by
  unfold pin20_management
  split_ifs <;> [skip; rfl]
  rw [publish_wake_up_switch_off]

theorem pin20_management_frame (t : Nat) (s : Bridge) :
    (pin20_management t s).desk_uart_ = s.desk_uart_ ∧
    (pin20_management t s).keypad_uart_ = s.keypad_uart_ ∧
    (pin20_management t s).last_pin20_high_time_ = s.last_pin20_high_time_ ∧
    (pin20_management t s).current_operation = s.current_operation ∧
    (pin20_management t s).last_wake_up_send_time = s.last_wake_up_send_time ∧
    ((pin20_management t s).wake_up_switch_ = none ↔ s.wake_up_switch_ = none) := by
  unfold pin20_management
  split_ifs
  · rw [publish_wake_up_switch_off]
    cases h : s.wake_up_switch_ <;> simp [h]
  · simp

/-- The two relay steps that open a tick: they succeed when a keypad endpoint
is set, append the pending keypad bytes to the desk output and leave the
enable window, both timers and the wake switch as they were. -/
theorem relay_phase (s : Bridge) (keypad : UART) (hk : s.keypad_uart_ = some keypad) :
    ∃ s1, handle_keypad_uart_data (handle_desk_uart_data s) = some s1 ∧
      s1.desk_uart_.tx = s.desk_uart_.tx ++ keypad.rx ∧
      s1.pin20_level = s.pin20_level ∧
      s1.pin20_active_ = s.pin20_active_ ∧
      s1.last_pin20_high_time_ = s.last_pin20_high_time_ ∧
      s1.last_wake_up_send_time = s.last_wake_up_send_time ∧
      s1.wake_up_switch_ = s.wake_up_switch_ ∧
      s1.on_state_callbacks = s.on_state_callbacks := by
  have hd : (handle_desk_uart_data s).keypad_uart_ =
      some { keypad with tx := keypad.tx ++ s.desk_uart_.rx } := by
    rw [handle_desk_uart_data_eq]; simp [hk]
  obtain ⟨k1, _, k3, _, k5, k6, k7, _, k9, _, k11⟩ :=
    keypad_relay_frame (keypad.rx) { keypad with tx := keypad.tx ++ s.desk_uart_.rx }
      (handle_desk_uart_data s)
  refine ⟨keypad_relay (keypad.rx) { keypad with tx := keypad.tx ++ s.desk_uart_.rx }
      (handle_desk_uart_data s), ?_, ?_, ?_, ?_, ?_, ?_, ?_, ?_⟩
  · simp only [handle_keypad_uart_data, hd]
  · rw [k1, handle_desk_uart_data_eq]
  · rw [k3, handle_desk_uart_data_eq]
  · rw [k7, handle_desk_uart_data_eq]
  · rw [k6, handle_desk_uart_data_eq]
  · rw [k9, handle_desk_uart_data_eq]
  · rw [k5, handle_desk_uart_data_eq]
  · rw [k11, handle_desk_uart_data_eq]

theorem pin20_management_switch (t : Nat) (s : Bridge) :
    (pin20_management t s).wake_up_switch_ =
        (if s.pin20_active_ = true ∧ sub_u32 (millis t) s.last_pin20_high_time_ > 1000 then
          s.wake_up_switch_.map (fun _ => false)
        else s.wake_up_switch_) ∧
      (pin20_management t s).on_state_callbacks = s.on_state_callbacks := by
  unfold pin20_management
  split_ifs
  · rw [publish_wake_up_switch_off]
    exact ⟨rfl, rfl⟩
  · exact ⟨rfl, rfl⟩

theorem repeated_ne_nil (n : Nat) (frame : List Nat) (hn : n ≠ 0) (hf : frame ≠ []) :
    repeated n frame ≠ [] := by
  cases n with
  | zero => exact absurd rfl hn
  | succ n => simp [repeated, hf]

theorem wake_repeats_eq_zero (s : Bridge)
    (h : s.wake_up_switch_ = none ∨ s.on_state_callbacks = 0) : wake_repeats s = 0 := by
  unfold wake_repeats
  rcases h with h | h
  · rw [h]
  · cases hs : s.wake_up_switch_ with
    | none => rfl
    | some reads => cases reads <;> simp [h]

theorem run_press_callbacks_last_wake (t : Nat) (cbs : List PressCallback) (s : Bridge) :
    (cbs.foldl (fun st cb => run_press_callback t cb st) s).last_wake_up_send_time =
      s.last_wake_up_send_time := by
  induction cbs generalizing s with
  | nil => rfl
  | cons cb rest ih =>
    rw [List.foldl_cons, ih]
    cases cb <;> rfl

/-! ## Preset lemmas -/

theorem register_preset_callbacks_eq (presets : List PresetButton) (s : Bridge)
    (h : ∀ p ∈ presets, p.button ≠ none) :
    register_preset_callbacks presets s =
      some { s with on_press_callbacks :=
        s.on_press_callbacks ++ preset_callbacks presets } := by
  induction presets generalizing s with
  | nil => simp [register_preset_callbacks, preset_callbacks]
  | cons p rest ih =>
    have hp := h p (List.mem_cons_self _ _)
    cases hb : p.button with
    | none => exact absurd hb hp
    | some b =>
      rw [register_preset_callbacks]
      simp only [hb]
      rw [ih _ (fun q hq => h q (List.mem_cons_of_mem _ hq))]
      simp [preset_callbacks, hb]

theorem setup_eq (s : Bridge) (h : ∀ p ∈ s.preset_buttons_, p.button ≠ none) :
    setup s =
      some { s with
        pin20_level := false
        on_state_callbacks :=
          match s.wake_up_switch_ with
          | some _ => s.on_state_callbacks + 1
          | none => s.on_state_callbacks
        on_press_callbacks :=
          s.on_press_callbacks ++
            (match s.m_button_ with
              | some m => [(m, PressCallback.stop)]
              | none => []) ++
            preset_callbacks s.preset_buttons_ } := by
  unfold setup
  cases hm : s.m_button_ <;> cases hw : s.wake_up_switch_ <;>
    simp only [hm, hw] <;>
    rw [register_preset_callbacks_eq _ _ (by simpa using h)] <;> simp

theorem preset_callbacks_filter_other (presets : List PresetButton) (A : Nat)
    (h : ∀ p ∈ presets, p.button ≠ some A) :
    (preset_callbacks presets).filter (fun r => r.1 = A) = [] := by
  rw [List.filter_eq_nil_iff]
  intro r hr
  unfold preset_callbacks at hr
  rw [List.mem_filterMap] at hr
  obtain ⟨p, hp, hpr⟩ := hr
  cases hb : p.button with
  | none => simp [hb] at hpr
  | some b =>
    simp only [hb, Option.map_some', Option.some.injEq] at hpr
    have := h p hp
    rw [hb] at this
    subst hpr
    simpa using fun hh => this (by rw [hh])

/-- After a successful `setup` of a bridge whose own callbacks and presets do
not involve button `A`, except for the presets `extra` appended last, a press
of `A` runs exactly the callbacks of `extra` on `A`. -/
theorem press_after_setup (t A : Nat) (s : Bridge) (extra : List PresetButton)
    (hnull : ∀ p ∈ s.preset_buttons_, p.button ≠ none)
    (hextra : ∀ p ∈ extra, p.button ≠ none)
    (hcb : ∀ r ∈ s.on_press_callbacks, r.1 ≠ A)
    (hm : s.m_button_ ≠ some A)
    (hp : ∀ p ∈ s.preset_buttons_, p.button ≠ some A) :
    ∃ s', setup { s with preset_buttons_ := s.preset_buttons_ ++ extra } = some s' ∧
      s'.desk_uart_ = s.desk_uart_ ∧
      s'.pin20_level = false ∧
      press t A s' =
        (((preset_callbacks extra).filter (fun r => r.1 = A)).map Prod.snd).foldl
          (fun st cb => run_press_callback t cb st) s' := by
  have hall : ∀ p ∈ ({ s with preset_buttons_ := s.preset_buttons_ ++ extra } : Bridge).preset_buttons_,
      p.button ≠ none := by
    intro p hp
    simp only [List.mem_append] at hp
    rcases hp with hp | hp
    · exact hnull p hp
    · exact hextra p hp
  refine ⟨_, setup_eq _ hall, rfl, rfl, ?_⟩
  unfold press
  congr 2
  simp only [List.filter_append]
  have h1 : s.on_press_callbacks.filter (fun r => r.1 = A) = [] := by
    rw [List.filter_eq_nil_iff]
    intro r hr
    simpa using hcb r hr
  have h2 : List.filter (fun r : Nat × PressCallback => decide (r.1 = A))
      (match s.m_button_ with
        | some m => [(m, PressCallback.stop)]
        | none => []) = [] := by
    cases hmb : s.m_button_ with
    | none => rfl
    | some m =>
      rw [hmb] at hm
      have : m ≠ A := fun hh => hm (by rw [hh])
      simp [this]
  have h3 : preset_callbacks (s.preset_buttons_ ++ extra) =
      preset_callbacks s.preset_buttons_ ++ preset_callbacks extra := by
    simp [preset_callbacks]
  rw [h1, h2, h3, List.filter_append, preset_callbacks_filter_other _ A hp]
  simp

theorem run_press_callbacks_operation (t : Nat) (cbs : List PressCallback) (s : Bridge)
    (h : ∀ cb ∈ cbs, cb ≠ PressCallback.stop) :
    (cbs.foldl (fun st cb => run_press_callback t cb st) s).current_operation =
      s.current_operation := by
  induction cbs generalizing s with
  | nil => rfl
  | cons cb rest ih =>
    rw [List.foldl_cons, ih _ (fun c hc => h c (List.mem_cons_of_mem _ hc))]
    cases cb with
    | stop => exact absurd rfl (h _ (List.mem_cons_self _ _))
    | command payload => rfl

/-! ## The line follows the window flag -/

theorem register_preset_callbacks_pin (presets : List PresetButton) (s s' : Bridge)
    (h : register_preset_callbacks presets s = some s') :
    s'.pin20_level = s.pin20_level ∧ s'.pin20_active_ = s.pin20_active_ := by
  induction presets generalizing s with
  | nil =>
    simp only [register_preset_callbacks, Option.some.injEq] at h
    subst h
    exact ⟨rfl, rfl⟩
  | cons p rest ih =>
    rw [register_preset_callbacks] at h
    cases hb : p.button with
    | none => simp [hb] at h
    | some b =>
      simp only [hb] at h
      exact ih
        { s with on_press_callbacks :=
            s.on_press_callbacks ++ [(b, PressCallback.command p.command_payload)] } h

theorem setup_pin (s s' : Bridge) (h : setup s = some s') :
    s'.pin20_level = false ∧ s'.pin20_active_ = s.pin20_active_ := by
  unfold setup at h
  obtain ⟨h1, h2⟩ := register_preset_callbacks_pin _ _ _ h
  rw [h1, h2]
  cases s.m_button_ <;> cases s.wake_up_switch_ <;> exact ⟨rfl, rfl⟩

theorem send_wake_up_iterate_pin (t n : Nat) (s : Bridge)
    (h : s.pin20_level = s.pin20_active_) :
    (Nat.iterate (send_wake_up t) n s).pin20_level =
      (Nat.iterate (send_wake_up t) n s).pin20_active_ := by
  induction n generalizing s with
  | zero => exact h
  | succ n ih =>
    rw [Function.iterate_succ_apply]
    apply ih
    rw [(send_wake_up_fields t s).2.1, (send_wake_up_fields t s).2.2.1]

theorem publish_wake_up_switch_pin (t : Nat) (state : Bool) (s : Bridge)
    (h : s.pin20_level = s.pin20_active_) :
    (publish_wake_up_switch state (send_wake_up t) s).pin20_level =
      (publish_wake_up_switch state (send_wake_up t) s).pin20_active_ := by
  cases state with
  | false =>
    rw [publish_wake_up_switch_off]
    exact h
  | true =>
    have hcb : wake_up_switch_callback (send_wake_up t) true = send_wake_up t := by
      funext x
      simp [wake_up_switch_callback]
    unfold publish_wake_up_switch
    cases hsw : s.wake_up_switch_ with
    | none => exact h
    | some reads =>
      cases reads with
      | true => exact h
      | false =>
        simp only [if_neg (show ¬ false = true by decide), hcb]
        exact send_wake_up_iterate_pin t _ _ h

theorem run_press_callbacks_pin (t : Nat) (cbs : List PressCallback) (s : Bridge)
    (h : s.pin20_level = s.pin20_active_) :
    (cbs.foldl (fun st cb => run_press_callback t cb st) s).pin20_level =
      (cbs.foldl (fun st cb => run_press_callback t cb st) s).pin20_active_ := by
  induction cbs generalizing s with
  | nil => exact h
  | cons cb rest ih =>
    rw [List.foldl_cons]
    apply ih
    cases cb <;> rfl

theorem loop_pin (t : Nat) (s s' : Bridge) (h : s.pin20_level = s.pin20_active_)
    (hl : loop t s = some s') : s'.pin20_level = s'.pin20_active_ := by
  unfold loop at hl
  cases hk : handle_keypad_uart_data (handle_desk_uart_data s) with
  | none => simp [hk] at hl
  | some s1 =>
    simp only [hk, Option.some.injEq] at hl
    subst hl
    have h1 : s1.pin20_level = s1.pin20_active_ := by
      unfold handle_keypad_uart_data at hk
      cases hq : (handle_desk_uart_data s).keypad_uart_ with
      | none => simp [hq] at hk
      | some keypad =>
        simp only [hq, Option.some.injEq] at hk
        subst hk
        obtain ⟨_, _, k3, _, _, _, k7, _⟩ :=
          keypad_relay_frame keypad.rx keypad (handle_desk_uart_data s)
        rw [k3, k7, handle_desk_uart_data_eq]
        exact h
    have h2 : (pin20_management t s1).pin20_level = (pin20_management t s1).pin20_active_ := by
      rw [pin20_management_level, pin20_management_active]
      split_ifs
      · rfl
      · exact h1
    unfold keep_alive
    split_ifs
    · show (send_wake_up t _).pin20_level = (send_wake_up t _).pin20_active_
      rw [(send_wake_up_fields t _).2.1, (send_wake_up_fields t _).2.2.1]
    · exact h2

theorem operation_run_pin (op : Operation) (s s' : Bridge)
    (h : s.pin20_level = s.pin20_active_) (hr : op.run s = some s') :
    s'.pin20_level = s'.pin20_active_ := by
  cases op with
  | tick t => exact loop_pin t s s' h hr
  | press t button =>
    simp only [Operation.run, Option.some.injEq] at hr
    subst hr
    exact run_press_callbacks_pin t _ s h
  | wake_up_switch_turned t state =>
    simp only [Operation.run, Option.some.injEq] at hr
    subst hr
    exact publish_wake_up_switch_pin t state s h
  | send_wake_up t =>
    simp only [Operation.run, Option.some.injEq] at hr
    subst hr
    rw [(send_wake_up_fields t s).2.1, (send_wake_up_fields t s).2.2.1]
  | send_command t command =>
    simp only [Operation.run, Option.some.injEq] at hr
    subst hr
    rfl
  | send_up t =>
    simp only [Operation.run, Option.some.injEq] at hr
    subst hr
    rfl
  | send_down t =>
    simp only [Operation.run, Option.some.injEq] at hr
    subst hr
    rfl
  | send_stop t =>
    simp only [Operation.run, Option.some.injEq] at hr
    subst hr
    rfl

theorem run_operations_pin (ops : List Operation) (s s' : Bridge)
    (h : s.pin20_level = s.pin20_active_) (hr : run_operations ops s = some s') :
    s'.pin20_level = s'.pin20_active_ := by
  induction ops generalizing s with
  | nil =>
    simp only [run_operations, Option.some.injEq] at hr
    subst hr
    exact h
  | cons op rest ih =>
    rw [run_operations] at hr
    cases ho : op.run s with
    | none => simp [ho] at hr
    | some s1 =>
      simp only [ho] at hr
      exact ih s1 (operation_run_pin op s s1 h ho) hr

/-! ## Claims -/

/-- Claim C1. Relay is verbatim in each direction. With a keypad endpoint set,
`handle_desk_uart_data` appends exactly the bytes pending on the desk endpoint, in
order, to the keypad output, empties the desk input and writes nothing to the desk;
`handle_keypad_uart_data` returns and appends exactly the bytes pending on the keypad
endpoint, in order, to the desk output, whatever their values. -/
theorem relay_is_verbatim (s : Bridge) (keypad : UART) (h : s.keypad_uart_ = some keypad) :
    ((handle_desk_uart_data s).keypad_uart_ =
        some { keypad with tx := keypad.tx ++ s.desk_uart_.rx } ∧
      (handle_desk_uart_data s).desk_uart_.rx = [] ∧
      (handle_desk_uart_data s).desk_uart_.tx = s.desk_uart_.tx) ∧
    ∃ s', handle_keypad_uart_data s = some s' ∧
      s'.desk_uart_.tx = s.desk_uart_.tx ++ keypad.rx ∧
      s'.desk_uart_.rx = s.desk_uart_.rx ∧
      s'.keypad_uart_ = some { keypad with rx := [] } := by
  constructor
  · rw [handle_desk_uart_data_eq]
    simp [h]
  · refine ⟨keypad_relay keypad.rx keypad s, ?_, ?_, ?_, ?_⟩
    · simp [handle_keypad_uart_data, h]
    · rw [(keypad_relay_frame keypad.rx keypad s).1]
    · rw [(keypad_relay_frame keypad.rx keypad s).1]
    · rw [(keypad_relay_frame keypad.rx keypad s).2.1, h]
      by_cases hr : keypad.rx = []
      · cases keypad
        simp_all
      · simp [hr]

/-- Claim C1 at `relay_example`, whose pending bytes include `0x01`, `0x02`, `0x20`. -/
theorem relay_is_verbatim_witness :
    relay_example.keypad_uart_ = some relay_example_keypad ∧
    (((handle_desk_uart_data relay_example).keypad_uart_ =
        some { relay_example_keypad with
          tx := relay_example_keypad.tx ++ relay_example.desk_uart_.rx } ∧
      (handle_desk_uart_data relay_example).desk_uart_.rx = [] ∧
      (handle_desk_uart_data relay_example).desk_uart_.tx = relay_example.desk_uart_.tx) ∧
    ∃ s', handle_keypad_uart_data relay_example = some s' ∧
      s'.desk_uart_.tx = relay_example.desk_uart_.tx ++ relay_example_keypad.rx ∧
      s'.desk_uart_.rx = relay_example.desk_uart_.rx ∧
      s'.keypad_uart_ = some { relay_example_keypad with rx := [] }) :=
  ⟨rfl, relay_is_verbatim relay_example relay_example_keypad rfl⟩

/-- Claim C2. Motion inference is last-observed-wins: after `handle_keypad_uart_data`
has drained the pending keypad bytes, the cover operation is opening, closing or idle
when the last pending byte among `0x01`, `0x02`, `0x20` is `0x01`, `0x02` or `0x20`
respectively, and it is the prior operation when no pending byte is one of the three. -/
theorem motion_inference_last_observed_wins (s : Bridge) (keypad : UART)
    (h : s.keypad_uart_ = some keypad) :
    ∃ s', handle_keypad_uart_data s = some s' ∧
      (last_motion_byte keypad.rx = some 0x01 → s'.current_operation = CoverOperation.opening) ∧
      (last_motion_byte keypad.rx = some 0x02 → s'.current_operation = CoverOperation.closing) ∧
      (last_motion_byte keypad.rx = some 0x20 → s'.current_operation = CoverOperation.idle) ∧
      ((∀ b ∈ keypad.rx, b ≠ 0x01 ∧ b ≠ 0x02 ∧ b ≠ 0x20) →
        s'.current_operation = s.current_operation) := by
  refine ⟨keypad_relay keypad.rx keypad s, ?_, ?_, ?_, ?_, ?_⟩
  · simp [handle_keypad_uart_data, h]
  · intro hl
    rw [keypad_relay_operation, inferred_operation, hl]
    rfl
  · intro hl
    rw [keypad_relay_operation, inferred_operation, hl]
    rfl
  · intro hl
    rw [keypad_relay_operation, inferred_operation, hl]
    rfl
  · intro hl
    rw [keypad_relay_operation, inferred_operation, (last_motion_byte_eq_none keypad.rx).2 hl]

/-- Claim C2 at `relay_example`: its last motion byte is `0x02`. -/
theorem motion_inference_last_observed_wins_witness :
    relay_example.keypad_uart_ = some relay_example_keypad ∧
    last_motion_byte relay_example_keypad.rx = some 0x02 ∧
    ∃ s', handle_keypad_uart_data relay_example = some s' ∧
      (last_motion_byte relay_example_keypad.rx = some 0x01 →
        s'.current_operation = CoverOperation.opening) ∧
      (last_motion_byte relay_example_keypad.rx = some 0x02 →
        s'.current_operation = CoverOperation.closing) ∧
      (last_motion_byte relay_example_keypad.rx = some 0x20 →
        s'.current_operation = CoverOperation.idle) ∧
      ((∀ b ∈ relay_example_keypad.rx, b ≠ 0x01 ∧ b ≠ 0x02 ∧ b ≠ 0x20) →
        s'.current_operation = relay_example.current_operation) :=
  ⟨rfl, by decide, motion_inference_last_observed_wins relay_example relay_example_keypad rfl⟩

/-- Claim C3. From every state, `send_up` sets the pin high, marks the window active
with `last_pin20_high_time_` the clock reading, appends exactly
`9b 06 02 01 00 fc a0 9d` to the desk output and sets the operation to opening;
`send_down` does the same with `CMD_DOWN` and closing, `send_stop` with `CMD_STOP`
and idle. -/
theorem send_up_down_stop_effect (t : Nat) (s : Bridge) :
    ((send_up t s).pin20_level = true ∧
      (send_up t s).pin20_active_ = true ∧
      (send_up t s).last_pin20_high_time_ = millis t ∧
      (send_up t s).desk_uart_.tx =
        s.desk_uart_.tx ++ [0x9b, 0x06, 0x02, 0x01, 0x00, 0xfc, 0xa0, 0x9d] ∧
      (send_up t s).current_operation = CoverOperation.opening) ∧
    ((send_down t s).pin20_level = true ∧
      (send_down t s).pin20_active_ = true ∧
      (send_down t s).last_pin20_high_time_ = millis t ∧
      (send_down t s).desk_uart_.tx = s.desk_uart_.tx ++ CMD_DOWN ∧
      (send_down t s).current_operation = CoverOperation.closing) ∧
    ((send_stop t s).pin20_level = true ∧
      (send_stop t s).pin20_active_ = true ∧
      (send_stop t s).last_pin20_high_time_ = millis t ∧
      (send_stop t s).desk_uart_.tx = s.desk_uart_.tx ++ CMD_STOP ∧
      (send_stop t s).current_operation = CoverOperation.idle) := by
  simp [send_up, send_down, send_stop, send_command, set_and_publish_operation,
    UART.write_bytes, CMD_UP]

/-- Claim C4 fails as stated: a command sent at time 0 and the pin 20 check at time
1000 (1000 ms elapsed, so "at least 1000 ms") leaves the line high. -/
theorem enable_line_still_high_at_1000ms :
    ¬ ((pin20_management 1000 (send_up 0 idle_bridge)).pin20_level = false ↔ 1000 - 0 ≥ 1000) := by
  decide

/-- Claim C4, amended. After a command is sent at time `t0`, the pin 20 check at a
later time `now` (less than `2^32` ms later) sets the line low, and marks the window
inactive, if and only if more than 1000 ms have elapsed: `now - t0 > 1000`. -/
theorem enable_line_deasserts_iff_more_than_1000ms (t0 now : Nat) (command : List Nat)
    (s : Bridge)
    (h1 : t0 ≤ now) (h2 : now - t0 < UINT32_MOD) :
    ((pin20_management now (send_command t0 command s)).pin20_level = false ↔ now - t0 > 1000) ∧
    ((pin20_management now (send_command t0 command s)).pin20_active_ = false ↔
      now - t0 > 1000) ∧
    ((pin20_management now (send_up t0 s)).pin20_level = false ↔ now - t0 > 1000) := by
  have hs := sub_u32_millis t0 now h1 h2
  refine ⟨?_, ?_, ?_⟩
  · rw [pin20_management_level]
    simp [send_command, hs]
  · rw [pin20_management_active]
    simp [send_command, hs]
  · rw [pin20_management_level]
    simp [send_up, send_command, set_and_publish_operation, hs]

/-- Claim C4 (amended) at `t0 = 200`, `now = 1201`. -/
theorem enable_line_deasserts_iff_more_than_1000ms_witness :
    (200 ≤ 1201 ∧ 1201 - 200 < UINT32_MOD) ∧
    ((pin20_management 1201 (send_command 200 CMD_STOP idle_bridge)).pin20_level = false ↔
      1201 - 200 > 1000) ∧
    ((pin20_management 1201 (send_command 200 CMD_STOP idle_bridge)).pin20_active_ = false ↔
      1201 - 200 > 1000) ∧
    ((pin20_management 1201 (send_up 200 idle_bridge)).pin20_level = false ↔
      1201 - 200 > 1000) :=
  ⟨by decide,
    enable_line_deasserts_iff_more_than_1000ms 200 1201 CMD_STOP idle_bridge (by decide)
      (by decide)⟩

/-- Claim C5. The pin 20 check of a tick sets the line low and marks the window
inactive when the window was active and the `uint32_t` difference
`millis() - last_pin20_high_time_` exceeds 1000, leaving `last_pin20_high_time_` as
it was; in every other case it leaves the whole state unchanged. It never sets the
line high. When `last_pin20_high_time_` was read at time `t0` at most `2^32 - 1` ms
before `t`, the difference is the elapsed time `t - t0`. -/
theorem pin20_management_step (t : Nat) (s : Bridge) :
    (s.pin20_active_ = true ∧ sub_u32 (millis t) s.last_pin20_high_time_ > 1000 →
      (pin20_management t s).pin20_level = false ∧
      (pin20_management t s).pin20_active_ = false ∧
      (pin20_management t s).last_pin20_high_time_ = s.last_pin20_high_time_) ∧
    (¬ (s.pin20_active_ = true ∧ sub_u32 (millis t) s.last_pin20_high_time_ > 1000) →
      pin20_management t s = s) ∧
    ((pin20_management t s).pin20_level = true → s.pin20_level = true) ∧
    (∀ t0, t0 ≤ t → t - t0 < UINT32_MOD → s.last_pin20_high_time_ = millis t0 →
      (sub_u32 (millis t) s.last_pin20_high_time_ > 1000 ↔ t - t0 > 1000)) := by
  refine ⟨?_, ?_, ?_, ?_⟩
  · intro h
    rw [pin20_management_level, pin20_management_active]
    refine ⟨by simp [h], by simp [h], ?_⟩
    unfold pin20_management
    rw [if_pos h, publish_wake_up_switch_off]
  · intro h
    unfold pin20_management
    rw [if_neg h]
  · rw [pin20_management_level]
    split_ifs <;> simp
  · intro t0 h1 h2 h3
    rw [h3, sub_u32_millis t0 t h1 h2]

/-- Claim C6. Re-asserting restarts the hold timer. After `send_command` at `t1` and
again at `t2` (with `t1 ≤ t2`, `t2 - t1 ≤ 1000`), `last_pin20_high_time_` is the clock
reading at `t2`; the pin 20 check at time `now` leaves the line high and the window
active when `now - t2 ≤ 1000`, whatever `now - t1` is, and sets the line low and the
window inactive when `now - t2 > 1000`. -/
theorem reassert_restarts_hold_timer (t1 t2 now : Nat) (c1 c2 : List Nat) (s : Bridge)
    (_h12 : t1 ≤ t2) (_hwithin : t2 - t1 ≤ 1000) (hnow : t2 ≤ now)
    (hrange : now - t2 < UINT32_MOD) :
    (send_command t2 c2 (send_command t1 c1 s)).last_pin20_high_time_ = millis t2 ∧
    (send_command t2 c2 (send_command t1 c1 s)).pin20_level = true ∧
    (now - t2 ≤ 1000 →
      (pin20_management now (send_command t2 c2 (send_command t1 c1 s))).pin20_level = true ∧
      (pin20_management now (send_command t2 c2 (send_command t1 c1 s))).pin20_active_ = true) ∧
    (now - t2 > 1000 →
      (pin20_management now (send_command t2 c2 (send_command t1 c1 s))).pin20_level = false ∧
      (pin20_management now (send_command t2 c2 (send_command t1 c1 s))).pin20_active_ = false) := by
  have hs := sub_u32_millis t2 now hnow hrange
  refine ⟨rfl, rfl, ?_, ?_⟩
  · intro h
    rw [pin20_management_level, pin20_management_active]
    simp [send_command, hs, h]
  · intro h
    rw [pin20_management_level, pin20_management_active]
    simp [send_command, hs, h]

/-- Claim C6 at `t1 = 0`, `t2 = 800`, `now = 1500`: 1500 ms after the first command
the line is still high. -/
theorem reassert_restarts_hold_timer_witness :
    (0 ≤ 800 ∧ 800 - 0 ≤ 1000 ∧ 800 ≤ 1500 ∧ 1500 - 800 < UINT32_MOD ∧ 1500 - 0 > 1000) ∧
    (send_command 800 CMD_DOWN (send_command 0 CMD_UP idle_bridge)).last_pin20_high_time_ = millis 800 ∧
    (send_command 800 CMD_DOWN (send_command 0 CMD_UP idle_bridge)).pin20_level = true ∧
    (1500 - 800 ≤ 1000 →
      (pin20_management 1500 (send_command 800 CMD_DOWN (send_command 0 CMD_UP idle_bridge))).pin20_level = true ∧
      (pin20_management 1500 (send_command 800 CMD_DOWN (send_command 0 CMD_UP idle_bridge))).pin20_active_ = true) ∧
    (1500 - 800 > 1000 →
      (pin20_management 1500 (send_command 800 CMD_DOWN (send_command 0 CMD_UP idle_bridge))).pin20_level = false ∧
      (pin20_management 1500 (send_command 800 CMD_DOWN (send_command 0 CMD_UP idle_bridge))).pin20_active_ = false) :=
  ⟨by decide,
    reassert_restarts_hold_timer 0 800 1500 CMD_UP CMD_DOWN idle_bridge (by decide) (by decide)
      (by decide) (by decide)⟩

/-- Claim C7 fails as stated: on the component just set up, nothing has ever been
sent, and the tick 5000 ms after boot sends no wake frame, leaves the line low and
the wake switch off. -/
theorem no_wake_frame_5000ms_after_boot :
    ∃ s1 s2, setup idle_bridge = some s1 ∧ s1.desk_uart_.tx = [] ∧
      loop 5000 s1 = some s2 ∧ s2.desk_uart_.tx = [] ∧ s2.pin20_level = false ∧
      s2.wake_up_switch_ = some false :=
  ⟨_, _, rfl, rfl, rfl, rfl, rfl, rfl⟩

/-- Claim C7, amended. If at a tick more than 5000 ms (and less than `2^32` ms) have
elapsed since the time `t0` recorded in `last_wake_up_send_time` (the last periodic
wake-up, boot when there was none), then the tick, with a keypad endpoint set,
returns; the desk output gains the relayed keypad bytes followed by the wake frame
`9b 06 02 00 00 6c a1 9d`, and nothing after that frame when no wake switch is set or
no state callback is on it; the pin is high afterwards and a wake switch, when set,
reads true. What follows the frame when the publish of the switch re-enters
`send_wake_up` is left open here. -/
theorem wake_frame_after_more_than_5000ms (t0 now : Nat) (s : Bridge) (keypad : UART)
    (hk : s.keypad_uart_ = some keypad)
    (hfired : s.last_wake_up_send_time = millis t0)
    (h1 : t0 ≤ now) (h2 : now - t0 < UINT32_MOD) (h3 : now - t0 > 5000) :
    ∃ s' extra, loop now s = some s' ∧
      s'.desk_uart_.tx =
        s.desk_uart_.tx ++ keypad.rx ++ [0x9b, 0x06, 0x02, 0x00, 0x00, 0x6c, 0xa1, 0x9d] ++
          extra ∧
      (s.wake_up_switch_ = none ∨ s.on_state_callbacks = 0 → extra = []) ∧
      s'.pin20_level = true ∧
      (s.wake_up_switch_ ≠ none → s'.wake_up_switch_ = some true) := by
  have hs := sub_u32_millis t0 now h1 h2
  obtain ⟨s1, hs1, r1, _, _, _, r5, r6, r7⟩ := relay_phase s keypad hk
  obtain ⟨p1, _, _, _, p5, p6⟩ := pin20_management_frame now s1
  obtain ⟨_, q2⟩ := pin20_management_switch now s1
  have hfire : sub_u32 (millis now) (pin20_management now s1).last_wake_up_send_time > 5000 := by
    rw [p5, r5, hfired, hs]; exact h3
  obtain ⟨w1, w2, _, _, w5, _, _⟩ := send_wake_up_fields now (pin20_management now s1)
  refine ⟨keep_alive now (pin20_management now s1),
    repeated (wake_repeats (pin20_management now s1)) CMD_WAKE_UP, ?_, ?_, ?_, ?_, ?_⟩
  · simp only [loop, hs1]
  · simp only [keep_alive, if_pos hfire]
    rw [w1]
    simp [p1, r1, CMD_WAKE_UP]
  · intro h
    have hz : wake_repeats (pin20_management now s1) = 0 := by
      apply wake_repeats_eq_zero
      rcases h with h | h
      · exact Or.inl (p6.2 (r6.trans h))
      · exact Or.inr (q2.trans (r7.trans h))
    rw [hz]
    rfl
  · simp only [keep_alive, if_pos hfire]
    exact w2
  · intro hw
    simp only [keep_alive, if_pos hfire]
    rw [w5]
    cases hx : (pin20_management now s1).wake_up_switch_ with
    | none => rw [p6, r6] at hx; exact absurd hx hw
    | some b => rfl

/-- Claim C7 (amended) at `set_up_relay_example`, the state `setup` leaves
`relay_example` in, 5001 ms after boot. -/
theorem wake_frame_after_more_than_5000ms_witness :
    (setup relay_example = some set_up_relay_example ∧
      set_up_relay_example.keypad_uart_ = some relay_example_keypad ∧
      set_up_relay_example.last_wake_up_send_time = millis 0 ∧
      0 ≤ 5001 ∧ 5001 - 0 < UINT32_MOD ∧ 5001 - 0 > 5000) ∧
    ∃ s' extra, loop 5001 set_up_relay_example = some s' ∧
      s'.desk_uart_.tx =
        set_up_relay_example.desk_uart_.tx ++ relay_example_keypad.rx ++
          [0x9b, 0x06, 0x02, 0x00, 0x00, 0x6c, 0xa1, 0x9d] ++ extra ∧
      (set_up_relay_example.wake_up_switch_ = none ∨
        set_up_relay_example.on_state_callbacks = 0 → extra = []) ∧
      s'.pin20_level = true ∧
      (set_up_relay_example.wake_up_switch_ ≠ none → s'.wake_up_switch_ = some true) :=
  ⟨by decide,
    wake_frame_after_more_than_5000ms 0 5001 set_up_relay_example relay_example_keypad rfl rfl
      (by decide) (by decide) (by decide)⟩

/-- Claim C8. The periodic wake-up block of a tick calls `send_wake_up` and stores
the clock reading in `last_wake_up_send_time` when the `uint32_t` difference
`millis() - last_wake_up_send_time` exceeds 5000, and otherwise leaves the whole state
unchanged. When it fires the desk output gains the wake frame, once for the call and
once more for each re-entrant call made through the wake switch (`wake_repeats`).
It never changes the cover operation; its effect on the desk output and
on the timer is the same for every cover operation; and `send_command`, `send_up`,
`send_down`, `send_stop` and button presses leave `last_wake_up_send_time` alone, so
they do not postpone it. When the timer was read at time `t0` at most `2^32 - 1` ms
before `t`, the difference is the elapsed time `t - t0`. -/
theorem keep_alive_step (t : Nat) (s : Bridge) :
    (sub_u32 (millis t) s.last_wake_up_send_time > 5000 →
      keep_alive t s = { send_wake_up t s with last_wake_up_send_time := millis t } ∧
      (keep_alive t s).desk_uart_.tx =
        s.desk_uart_.tx ++ CMD_WAKE_UP ++ repeated (wake_repeats s) CMD_WAKE_UP ∧
      (keep_alive t s).desk_uart_.tx ≠ s.desk_uart_.tx ∧
      (keep_alive t s).last_wake_up_send_time = millis t) ∧
    (¬ sub_u32 (millis t) s.last_wake_up_send_time > 5000 → keep_alive t s = s) ∧
    (keep_alive t s).current_operation = s.current_operation ∧
    (∀ op moving,
      ((keep_alive t { s with current_operation := op, desk_moving_ := moving }).desk_uart_ =
          (keep_alive t s).desk_uart_ ∧
        (keep_alive t { s with current_operation := op, desk_moving_ := moving }).last_wake_up_send_time =
          (keep_alive t s).last_wake_up_send_time)) ∧
    (∀ t1 command button,
      (send_command t1 command s).last_wake_up_send_time = s.last_wake_up_send_time ∧
      (send_up t1 s).last_wake_up_send_time = s.last_wake_up_send_time ∧
      (send_down t1 s).last_wake_up_send_time = s.last_wake_up_send_time ∧
      (send_stop t1 s).last_wake_up_send_time = s.last_wake_up_send_time ∧
      (press t1 button s).last_wake_up_send_time = s.last_wake_up_send_time) ∧
    (∀ t0, t0 ≤ t → t - t0 < UINT32_MOD → s.last_wake_up_send_time = millis t0 →
      (sub_u32 (millis t) s.last_wake_up_send_time > 5000 ↔ t - t0 > 5000)) := by
  refine ⟨?_, ?_, ?_, ?_, ?_, ?_⟩
  · intro h
    have htx : (keep_alive t s).desk_uart_.tx =
        s.desk_uart_.tx ++ CMD_WAKE_UP ++ repeated (wake_repeats s) CMD_WAKE_UP := by
      simp only [keep_alive, if_pos h]
      rw [(send_wake_up_fields t s).1]
    refine ⟨?_, htx, ?_, ?_⟩
    · simp only [keep_alive, if_pos h]
    · rw [htx]
      simp [CMD_WAKE_UP]
    · simp only [keep_alive, if_pos h]
  · intro h
    simp only [keep_alive, if_neg h]
  · unfold keep_alive
    split_ifs
    · exact (send_wake_up_fields t s).2.2.2.2.2.1
    · rfl
  · intro op moving
    unfold keep_alive
    simp only
    split_ifs
    · exact ⟨by rw [(send_wake_up_fields t _).1, (send_wake_up_fields t s).1]; rfl, rfl⟩
    · exact ⟨rfl, rfl⟩
  · intro t1 command button
    exact ⟨rfl, rfl, rfl, rfl, run_press_callbacks_last_wake t1 _ s⟩
  · intro t0 h1 h2 h3
    rw [h3, sub_u32_millis t0 t h1 h2]

/-- Claim C9. Two presets registered with `add_preset_button` on distinct buttons `A`
and `B`, on a bridge whose other presets have buttons and where nothing else is bound
to `A` or `B`: `setup` succeeds, and afterwards a press of `A` raises the pin, opens
the window and appends exactly `fA` to the desk output, and a press of `B` does so
with exactly `fB`. -/
theorem presets_independently_invocable (t A B : Nat) (fA fB : List Nat) (s : Bridge)
    (hAB : A ≠ B)
    (hnull : ∀ p ∈ s.preset_buttons_, p.button ≠ none)
    (hcb : ∀ r ∈ s.on_press_callbacks, r.1 ≠ A ∧ r.1 ≠ B)
    (hm : s.m_button_ ≠ some A ∧ s.m_button_ ≠ some B)
    (hp : ∀ p ∈ s.preset_buttons_, p.button ≠ some A ∧ p.button ≠ some B) :
    ∃ s', setup (add_preset_button (some B) fB (add_preset_button (some A) fA s)) = some s' ∧
      ((press t A s').desk_uart_.tx = s'.desk_uart_.tx ++ fA ∧
        (press t A s').pin20_level = true ∧
        (press t A s').pin20_active_ = true ∧
        (press t A s').last_pin20_high_time_ = millis t) ∧
      ((press t B s').desk_uart_.tx = s'.desk_uart_.tx ++ fB ∧
        (press t B s').pin20_level = true ∧
        (press t B s').pin20_active_ = true ∧
        (press t B s').last_pin20_high_time_ = millis t) := by
  have hadd : add_preset_button (some B) fB (add_preset_button (some A) fA s) =
      { s with preset_buttons_ := s.preset_buttons_ ++
        [{ button := some A, command_payload := fA }, { button := some B, command_payload := fB }] } := by
    simp [add_preset_button]
  have hextra : ∀ p ∈ [({ button := some A, command_payload := fA } : PresetButton),
      { button := some B, command_payload := fB }], p.button ≠ none := by
    intro p hp
    simp only [List.mem_cons, List.mem_singleton, List.not_mem_nil, or_false] at hp
    rcases hp with hp | hp <;> simp [hp]
  obtain ⟨sA, hsA, _, _, hpA⟩ := press_after_setup t A s _ hnull hextra
    (fun r hr => (hcb r hr).1) hm.1 (fun p hq => (hp p hq).1)
  obtain ⟨sB, hsB, _, _, hpB⟩ := press_after_setup t B s _ hnull hextra
    (fun r hr => (hcb r hr).2) hm.2 (fun p hq => (hp p hq).2)
  rw [← hadd] at hsA hsB
  have hsame : sB = sA := by
    rw [hsA] at hsB
    exact (Option.some.inj hsB).symm
  subst hsame
  refine ⟨sB, hsA, ?_, ?_⟩
  · rw [hpA]
    simp [preset_callbacks, hAB, Ne.symm hAB, run_press_callback, send_command, UART.write_bytes]
  · rw [hpB]
    simp [preset_callbacks, hAB, Ne.symm hAB, run_press_callback, send_command, UART.write_bytes]

/-- Claim C9 at buttons 1 and 2 with `CMD_PRESET_1` and `CMD_PRESET_2`. -/
theorem presets_independently_invocable_witness :
    (1 ≠ 2 ∧
      (∀ p ∈ idle_bridge.preset_buttons_, p.button ≠ none) ∧
      (∀ r ∈ idle_bridge.on_press_callbacks, r.1 ≠ 1 ∧ r.1 ≠ 2) ∧
      (idle_bridge.m_button_ ≠ some 1 ∧ idle_bridge.m_button_ ≠ some 2) ∧
      (∀ p ∈ idle_bridge.preset_buttons_, p.button ≠ some 1 ∧ p.button ≠ some 2)) ∧
    ∃ s', setup (add_preset_button (some 2) CMD_PRESET_2
        (add_preset_button (some 1) CMD_PRESET_1 idle_bridge)) = some s' ∧
      ((press 7 1 s').desk_uart_.tx = s'.desk_uart_.tx ++ CMD_PRESET_1 ∧
        (press 7 1 s').pin20_level = true ∧
        (press 7 1 s').pin20_active_ = true ∧
        (press 7 1 s').last_pin20_high_time_ = millis 7) ∧
      ((press 7 2 s').desk_uart_.tx = s'.desk_uart_.tx ++ CMD_PRESET_2 ∧
        (press 7 2 s').pin20_level = true ∧
        (press 7 2 s').pin20_active_ = true ∧
        (press 7 2 s').last_pin20_high_time_ = millis 7) :=
  ⟨by decide, presets_independently_invocable 7 1 2 CMD_PRESET_1 CMD_PRESET_2 idle_bridge (by decide) (by decide) (by decide)
    (by decide) (by decide)⟩

/-- Claim C10 fails as stated: after registering button 1 with `CMD_PRESET_1` and
then with `CMD_PRESET_2`, the bridge holds two presets for button 1 and one press
sends both frames, `CMD_PRESET_1` first. -/
theorem duplicate_registration_keeps_both :
    ∃ s', setup (add_preset_button (some 1) CMD_PRESET_2
        (add_preset_button (some 1) CMD_PRESET_1 idle_bridge)) = some s' ∧
      (s'.preset_buttons_.filter (fun p => p.button = some 1)).length = 2 ∧
      s'.desk_uart_.tx = [] ∧
      (press 0 1 s').desk_uart_.tx = CMD_PRESET_1 ++ CMD_PRESET_2 ∧
      (press 0 1 s').desk_uart_.tx ≠ CMD_PRESET_2 :=
  ⟨_, rfl, by decide, rfl, by decide, by decide⟩

/-- Claim C10, amended. Duplicate registration appends: after
`add_preset_button(A, f1)` and `add_preset_button(A, f2)` the preset list ends with
the two bindings in that order, `setup` succeeds, and one press of `A` appends `f1`
followed by `f2` to the desk output. -/
theorem duplicate_registration_appends (t A : Nat) (f1 f2 : List Nat) (s : Bridge)
    (hnull : ∀ p ∈ s.preset_buttons_, p.button ≠ none)
    (hcb : ∀ r ∈ s.on_press_callbacks, r.1 ≠ A)
    (hm : s.m_button_ ≠ some A)
    (hp : ∀ p ∈ s.preset_buttons_, p.button ≠ some A) :
    (add_preset_button (some A) f2 (add_preset_button (some A) f1 s)).preset_buttons_ =
      s.preset_buttons_ ++
        [{ button := some A, command_payload := f1 }, { button := some A, command_payload := f2 }] ∧
    ∃ s', setup (add_preset_button (some A) f2 (add_preset_button (some A) f1 s)) = some s' ∧
      (press t A s').desk_uart_.tx = s'.desk_uart_.tx ++ f1 ++ f2 := by
  have hadd : add_preset_button (some A) f2 (add_preset_button (some A) f1 s) =
      { s with preset_buttons_ := s.preset_buttons_ ++
        [{ button := some A, command_payload := f1 }, { button := some A, command_payload := f2 }] } := by
    simp [add_preset_button]
  have hextra : ∀ p ∈ [({ button := some A, command_payload := f1 } : PresetButton),
      { button := some A, command_payload := f2 }], p.button ≠ none := by
    intro p hp
    simp only [List.mem_cons, List.mem_singleton, List.not_mem_nil, or_false] at hp
    rcases hp with hp | hp <;> simp [hp]
  obtain ⟨s', hs', _, _, hpress⟩ := press_after_setup t A s _ hnull hextra hcb hm hp
  rw [← hadd] at hs'
  refine ⟨by rw [hadd], s', hs', ?_⟩
  rw [hpress]
  simp [preset_callbacks, run_press_callback, send_command, UART.write_bytes]

/-- Claim C10 (amended) at button 1 with `CMD_PRESET_1` then `CMD_PRESET_2`. -/
theorem duplicate_registration_appends_witness :
    ((∀ p ∈ idle_bridge.preset_buttons_, p.button ≠ none) ∧
      (∀ r ∈ idle_bridge.on_press_callbacks, r.1 ≠ 1) ∧
      idle_bridge.m_button_ ≠ some 1 ∧
      (∀ p ∈ idle_bridge.preset_buttons_, p.button ≠ some 1)) ∧
    ((add_preset_button (some 1) CMD_PRESET_2
        (add_preset_button (some 1) CMD_PRESET_1 idle_bridge)).preset_buttons_ =
      idle_bridge.preset_buttons_ ++
        [{ button := some 1, command_payload := CMD_PRESET_1 },
          { button := some 1, command_payload := CMD_PRESET_2 }] ∧
    ∃ s', setup (add_preset_button (some 1) CMD_PRESET_2
        (add_preset_button (some 1) CMD_PRESET_1 idle_bridge)) = some s' ∧
      (press 7 1 s').desk_uart_.tx = s'.desk_uart_.tx ++ CMD_PRESET_1 ++ CMD_PRESET_2) :=
  ⟨by decide, duplicate_registration_appends 7 1 CMD_PRESET_1 CMD_PRESET_2 idle_bridge (by decide) (by decide) (by decide)
    (by decide)⟩

/-- Claim C11 fails as stated: registering a preset with a null button, or with an
empty payload, changes the preset list. The empty preset is live after `setup`: a
press of its button raises the line and sends no byte. -/
theorem null_or_empty_preset_is_stored :
    (add_preset_button none CMD_PRESET_1 idle_bridge).preset_buttons_ ≠
        idle_bridge.preset_buttons_ ∧
    (add_preset_button (some 1) [] idle_bridge).preset_buttons_ ≠
        idle_bridge.preset_buttons_ ∧
    (add_preset_button none [] idle_bridge).preset_buttons_ =
        [{ button := none, command_payload := [] }] ∧
    ∃ s', setup (add_preset_button (some 1) [] idle_bridge) = some s' ∧
      s'.pin20_level = false ∧
      (press 5 1 s').pin20_level = true ∧
      (press 5 1 s').desk_uart_.tx = [] :=
  ⟨by decide, by decide, by decide, _, rfl, rfl, rfl, rfl⟩

/-- Claim C11, amended. `add_preset_button` validates nothing: whatever the button
(null included) and the payload (empty included), it appends the binding to the end
of the preset list and changes no other field of the state. -/
theorem add_preset_button_always_appends (button : Option Nat) (command_payload : List Nat)
    (s : Bridge) :
    (add_preset_button button command_payload s).preset_buttons_ =
      s.preset_buttons_ ++ [{ button := button, command_payload := command_payload }] ∧
    { add_preset_button button command_payload s with preset_buttons_ := s.preset_buttons_ } =
      s := by
  exact ⟨rfl, rfl⟩

/-- Claim C12. The cover operation is left unchanged by `send_command` with any
frame, by the body of a preset's press callback, by `send_wake_up`, by
`handle_desk_uart_data` whatever bytes are pending on the desk endpoint, by the pin 20
check, by the periodic wake-up block, and by a press of any button that carries no
stop callback (that is, any button other than the M button). -/
theorem motion_state_frame (t : Nat) (command : List Nat) (s : Bridge) :
    (send_command t command s).current_operation = s.current_operation ∧
    (run_press_callback t (PressCallback.command command) s).current_operation =
      s.current_operation ∧
    (send_wake_up t s).current_operation = s.current_operation ∧
    (handle_desk_uart_data s).current_operation = s.current_operation ∧
    (pin20_management t s).current_operation = s.current_operation ∧
    (keep_alive t s).current_operation = s.current_operation ∧
    (∀ button, (∀ r ∈ s.on_press_callbacks, r.1 = button → r.2 ≠ PressCallback.stop) →
      (press t button s).current_operation = s.current_operation) := by
  refine ⟨rfl, rfl, (send_wake_up_fields t s).2.2.2.2.2.1, ?_,
    (pin20_management_frame t s).2.2.2.1, ?_, ?_⟩
  · rw [handle_desk_uart_data_eq]
  · unfold keep_alive
    split_ifs
    · exact (send_wake_up_fields t s).2.2.2.2.2.1
    · rfl
  · intro button h
    unfold press
    apply run_press_callbacks_operation
    intro cb hcb
    rw [List.mem_map] at hcb
    obtain ⟨r, hr, rfl⟩ := hcb
    rw [List.mem_filter] at hr
    exact h r hr.1 (by simpa using hr.2)

/-- Claim C13. Each of the eight catalog frames has exactly 8 bytes and ends with
`0x9d`; `CMD_UP` is `9b 06 02 01 00 fc a0 9d` and `CMD_WAKE_UP` is
`9b 06 02 00 00 6c a1 9d`; the eight frames are pairwise distinct. -/
theorem catalog_frames :
    (∀ frame ∈ [CMD_WAKE_UP, CMD_UP, CMD_DOWN, CMD_STOP, CMD_PRESET_1, CMD_PRESET_2,
        CMD_PRESET_3_STAND, CMD_PRESET_4_SIT],
      frame.length = 8 ∧ frame.getLast? = some 0x9d) ∧
    CMD_UP = [0x9b, 0x06, 0x02, 0x01, 0x00, 0xfc, 0xa0, 0x9d] ∧
    CMD_WAKE_UP = [0x9b, 0x06, 0x02, 0x00, 0x00, 0x6c, 0xa1, 0x9d] ∧
    [CMD_WAKE_UP, CMD_UP, CMD_DOWN, CMD_STOP, CMD_PRESET_1, CMD_PRESET_2,
        CMD_PRESET_3_STAND, CMD_PRESET_4_SIT].Nodup := by
  decide

/-- Claim C14. A pass of `loop` is the desk relay, then the keypad relay, then the
pin 20 check, then the periodic wake-up block. So when the window is active with the
`uint32_t` difference to `last_pin20_high_time_` above 1000 and the difference to
`last_wake_up_send_time` above 5000, the pin 20 check first sets the line low (and
publishes the wake switch off) and the wake-up block then raises it: the pass ends
with the line high, the window active with `last_pin20_high_time_` the clock reading,
the wake switch (when set) on, and the wake frame in the desk output after all keypad
bytes relayed in the pass, followed by one more wake frame for each state callback on
a wake switch, whose publish re-enters `send_wake_up`. The order of the last two
blocks shows in the output: run the other way round on a switch that reads on, the
wake-up block would send the frame once only. -/
theorem tick_order (now : Nat) (s : Bridge) (keypad : UART)
    (hk : s.keypad_uart_ = some keypad)
    (hactive : s.pin20_active_ = true)
    (hhold : sub_u32 (millis now) s.last_pin20_high_time_ > 1000)
    (hperiod : sub_u32 (millis now) s.last_wake_up_send_time > 5000) :
    ∃ s1 s', handle_keypad_uart_data (handle_desk_uart_data s) = some s1 ∧
      loop now s = some s' ∧
      s' = keep_alive now (pin20_management now s1) ∧
      (pin20_management now s1).pin20_level = false ∧
      (pin20_management now s1).pin20_active_ = false ∧
      s'.pin20_level = true ∧
      s'.pin20_active_ = true ∧
      s'.last_pin20_high_time_ = millis now ∧
      (s.wake_up_switch_ ≠ none → s'.wake_up_switch_ = some true) ∧
      s'.desk_uart_.tx =
        s.desk_uart_.tx ++ keypad.rx ++ CMD_WAKE_UP ++
          repeated (if s.wake_up_switch_ = none then 0 else s.on_state_callbacks) CMD_WAKE_UP ∧
      (s.wake_up_switch_ = some true → s.on_state_callbacks ≠ 0 →
        (pin20_management now (keep_alive now s1)).desk_uart_.tx ≠ s'.desk_uart_.tx) := by
  obtain ⟨s1, hs1, r1, _, r3, r4, r5, r6, r7⟩ := relay_phase s keypad hk
  obtain ⟨p1, _, _, _, p5, p6⟩ := pin20_management_frame now s1
  obtain ⟨q1, q2⟩ := pin20_management_switch now s1
  have hguard : s1.pin20_active_ = true ∧
      sub_u32 (millis now) s1.last_pin20_high_time_ > 1000 := by
    rw [r3, r4]; exact ⟨hactive, hhold⟩
  have hfire : sub_u32 (millis now) (pin20_management now s1).last_wake_up_send_time > 5000 := by
    rw [p5, r5]; exact hperiod
  have hfire1 : sub_u32 (millis now) s1.last_wake_up_send_time > 5000 := by
    rw [r5]; exact hperiod
  obtain ⟨w1, w2, w3, w4, w5, _, _⟩ := send_wake_up_fields now (pin20_management now s1)
  have hrep : wake_repeats (pin20_management now s1) =
      if s.wake_up_switch_ = none then 0 else s.on_state_callbacks := by
    unfold wake_repeats
    rw [q1, if_pos hguard, q2, r6, r7]
    cases s.wake_up_switch_ <;> simp
  have htx : (keep_alive now (pin20_management now s1)).desk_uart_.tx =
      s.desk_uart_.tx ++ keypad.rx ++ CMD_WAKE_UP ++
        repeated (if s.wake_up_switch_ = none then 0 else s.on_state_callbacks) CMD_WAKE_UP := by
    simp only [keep_alive, if_pos hfire]
    rw [w1, hrep]
    simp [p1, r1]
  refine ⟨s1, keep_alive now (pin20_management now s1), hs1, ?_, rfl, ?_, ?_, ?_, ?_, ?_, ?_,
    htx, ?_⟩
  · simp only [loop, hs1]
  · rw [pin20_management_level, if_pos hguard]
  · rw [pin20_management_active, if_pos hguard]
  · simp only [keep_alive, if_pos hfire]
    exact w2
  · simp only [keep_alive, if_pos hfire]
    exact w3
  · simp only [keep_alive, if_pos hfire]
    exact w4
  · intro hw
    simp only [keep_alive, if_pos hfire]
    rw [w5]
    cases hx : (pin20_management now s1).wake_up_switch_ with
    | none => rw [p6, r6] at hx; exact absurd hx hw
    | some b => rfl
  · intro hon hcb
    obtain ⟨v1, _, v3, v4, _, _, _⟩ := send_wake_up_fields now s1
    have hk1 : keep_alive now s1 =
        { send_wake_up now s1 with last_wake_up_send_time := millis now } := by
      simp only [keep_alive, if_pos hfire1]
    have hnot : ¬ ((keep_alive now s1).pin20_active_ = true ∧
        sub_u32 (millis now) (keep_alive now s1).last_pin20_high_time_ > 1000) := by
      rw [hk1]
      simp only [v4, sub_u32_self]
      omega
    have hswap : pin20_management now (keep_alive now s1) = keep_alive now s1 := by
      unfold pin20_management
      rw [if_neg hnot]
    have hz : wake_repeats s1 = 0 := by
      unfold wake_repeats
      rw [r6, hon]
    rw [hswap, htx, hk1]
    simp only [v1, hz, r1, hon]
    have hne := repeated_ne_nil s.on_state_callbacks CMD_WAKE_UP hcb (by decide)
    simpa [repeated] using hne

/-- Claim C14 at `stale_window_bridge`, 6000 ms after its window was opened: the
switch reads on and has the state callback of `setup`, so the pass sends the wake
frame twice. -/
theorem tick_order_witness :
    (stale_window_bridge.keypad_uart_ = some relay_example_keypad ∧
      stale_window_bridge.pin20_active_ = true ∧
      sub_u32 (millis 6000) stale_window_bridge.last_pin20_high_time_ > 1000 ∧
      sub_u32 (millis 6000) stale_window_bridge.last_wake_up_send_time > 5000 ∧
      stale_window_bridge.wake_up_switch_ = some true ∧
      stale_window_bridge.on_state_callbacks = 1) ∧
    ∃ s1 s', handle_keypad_uart_data (handle_desk_uart_data stale_window_bridge) = some s1 ∧
      loop 6000 stale_window_bridge = some s' ∧
      s' = keep_alive 6000 (pin20_management 6000 s1) ∧
      (pin20_management 6000 s1).pin20_level = false ∧
      (pin20_management 6000 s1).pin20_active_ = false ∧
      s'.pin20_level = true ∧
      s'.pin20_active_ = true ∧
      s'.last_pin20_high_time_ = millis 6000 ∧
      (stale_window_bridge.wake_up_switch_ ≠ none → s'.wake_up_switch_ = some true) ∧
      s'.desk_uart_.tx =
        stale_window_bridge.desk_uart_.tx ++ relay_example_keypad.rx ++ CMD_WAKE_UP ++
          repeated
            (if stale_window_bridge.wake_up_switch_ = none then 0
              else stale_window_bridge.on_state_callbacks) CMD_WAKE_UP ∧
      (stale_window_bridge.wake_up_switch_ = some true →
        stale_window_bridge.on_state_callbacks ≠ 0 →
        (pin20_management 6000 (keep_alive 6000 s1)).desk_uart_.tx ≠ s'.desk_uart_.tx) :=
  ⟨by decide, tick_order 6000 stale_window_bridge relay_example_keypad rfl rfl (by decide)
    (by decide)⟩

/-- Claim C15. In every state reached from the state after `setup` of a component
whose window flag is clear (line low, window inactive) by any sequence of
`send_command`, `send_up`, `send_down`, `send_stop`, `send_wake_up`, button presses,
wake switch changes and passes of `loop`, the line is high if and only if
`pin20_active_` is true. -/
theorem enable_line_follows_window (s0 s1 s' : Bridge) (ops : List Operation)
    (hclear : s0.pin20_active_ = false)
    (hsetup : setup s0 = some s1)
    (hrun : run_operations ops s1 = some s') :
    s'.pin20_level = true ↔ s'.pin20_active_ = true := by
  obtain ⟨h1, h2⟩ := setup_pin s0 s1 hsetup
  have h := run_operations_pin ops s1 s' (by rw [h1, h2, hclear]) hrun
  rw [h]

/-- Claim C15 at `preset_bridge` and `example_operations`: the run ends after the
window has lapsed, line low and flag clear. -/
theorem enable_line_follows_window_witness :
    ∃ s1 s', preset_bridge.pin20_active_ = false ∧
      setup preset_bridge = some s1 ∧
      run_operations example_operations s1 = some s' ∧
      s'.pin20_level = false ∧
      (s'.pin20_level = true ↔ s'.pin20_active_ = true) :=
  ⟨_, _, rfl, rfl, rfl, rfl,
    enable_line_follows_window preset_bridge _ _ example_operations rfl rfl rfl⟩

/-- Claim C16. The elapsed-time tests survive wrap-around of the 32-bit clock: when
the stored time is the clock reading at `t0` and the test runs `d < 2^32` ms later, at
clock reading `(t0 + d) % 2^32`, the pin 20 check of an active window deasserts
exactly when `d > 1000`, and the periodic wake-up fires (the desk output gains the
wake frames of `send_wake_up`, the timer is reset) exactly when `d > 5000` and
otherwise sends nothing, whether or not the clock wrapped in between. -/
theorem elapsed_tests_wrap_around (t0 d : Nat) (s : Bridge) (hd : d < UINT32_MOD) :
    millis (t0 + d) = (t0 % UINT32_MOD + d) % UINT32_MOD ∧
    (s.pin20_active_ = true → s.pin20_level = true →
      s.last_pin20_high_time_ = millis t0 →
      (((pin20_management (t0 + d) s).pin20_level = false ↔ d > 1000) ∧
        ((pin20_management (t0 + d) s).pin20_active_ = false ↔ d > 1000))) ∧
    (s.last_wake_up_send_time = millis t0 →
      (((keep_alive (t0 + d) s).desk_uart_.tx =
            s.desk_uart_.tx ++ CMD_WAKE_UP ++ repeated (wake_repeats s) CMD_WAKE_UP ↔
          d > 5000) ∧
        (keep_alive (t0 + d) s =
            { send_wake_up (t0 + d) s with last_wake_up_send_time := millis (t0 + d) } ↔
          d > 5000) ∧
        ((keep_alive (t0 + d) s).desk_uart_.tx = s.desk_uart_.tx ↔ ¬ d > 5000) ∧
        (keep_alive (t0 + d) s = s ↔ ¬ d > 5000))) := by
  have hs := sub_u32_millis_add t0 d hd
  refine ⟨?_, ?_, ?_⟩
  · unfold millis UINT32_MOD
    omega
  · intro ha hl ht
    rw [pin20_management_level, pin20_management_active, ht, hs, ha, hl]
    simp
  · intro ht
    have hfired : d > 5000 → keep_alive (t0 + d) s =
        { send_wake_up (t0 + d) s with last_wake_up_send_time := millis (t0 + d) } := by
      intro h
      unfold keep_alive
      rw [ht, hs, if_pos h]
    have hquiet : ¬ d > 5000 → keep_alive (t0 + d) s = s := by
      intro h
      unfold keep_alive
      rw [ht, hs, if_neg h]
    have htx : d > 5000 → (keep_alive (t0 + d) s).desk_uart_.tx =
        s.desk_uart_.tx ++ CMD_WAKE_UP ++ repeated (wake_repeats s) CMD_WAKE_UP := by
      intro h
      rw [hfired h]
      exact congrArg UART.tx (send_wake_up_fields (t0 + d) s).1
    have hgrow : s.desk_uart_.tx ≠
        s.desk_uart_.tx ++ CMD_WAKE_UP ++ repeated (wake_repeats s) CMD_WAKE_UP := by
      simp [CMD_WAKE_UP]
    have hchange : d > 5000 → keep_alive (t0 + d) s ≠ s := by
      intro h heq
      have := htx h
      rw [heq] at this
      exact hgrow this
    refine ⟨⟨?_, htx⟩, ⟨?_, hfired⟩, ⟨?_, ?_⟩, ⟨?_, hquiet⟩⟩
    · intro h
      by_contra hn
      rw [hquiet hn] at h
      exact hgrow h
    · intro h
      by_contra hn
      have htx' := congrArg (fun x => x.desk_uart_.tx) h
      simp only [hquiet hn] at htx'
      exact hgrow (htx'.trans (congrArg UART.tx (send_wake_up_fields (t0 + d) s).1))
    · intro h hn
      rw [htx hn] at h
      exact hgrow h.symm
    · intro h
      rw [hquiet h]
    · intro h hn
      exact hchange hn h

/-- Claim C16 with a wrap, at `wrap_example`: both times were stored 500 ms before
the clock wraps and the tests run 5001 ms later, at clock reading 4501. -/
theorem elapsed_tests_wrap_around_witness :
    (5001 < UINT32_MOD ∧ millis (4294966796 + 5001) = 4501 ∧
      millis 4294966796 = 4294966796 ∧
      wrap_example.pin20_active_ = true ∧ wrap_example.pin20_level = true ∧
      wrap_example.last_pin20_high_time_ = millis 4294966796 ∧
      wrap_example.last_wake_up_send_time = millis 4294966796 ∧
      wrap_example.on_state_callbacks = 1) ∧
    (millis (4294966796 + 5001) = (4294966796 % UINT32_MOD + 5001) % UINT32_MOD ∧
    (wrap_example.pin20_active_ = true → wrap_example.pin20_level = true →
      wrap_example.last_pin20_high_time_ = millis 4294966796 →
      (((pin20_management (4294966796 + 5001) wrap_example).pin20_level = false ↔
          5001 > 1000) ∧
        ((pin20_management (4294966796 + 5001) wrap_example).pin20_active_ = false ↔
          5001 > 1000))) ∧
    (wrap_example.last_wake_up_send_time = millis 4294966796 →
      (((keep_alive (4294966796 + 5001) wrap_example).desk_uart_.tx =
            wrap_example.desk_uart_.tx ++ CMD_WAKE_UP ++
              repeated (wake_repeats wrap_example) CMD_WAKE_UP ↔
          5001 > 5000) ∧
        (keep_alive (4294966796 + 5001) wrap_example =
            { send_wake_up (4294966796 + 5001) wrap_example with
              last_wake_up_send_time := millis (4294966796 + 5001) } ↔
          5001 > 5000) ∧
        ((keep_alive (4294966796 + 5001) wrap_example).desk_uart_.tx =
            wrap_example.desk_uart_.tx ↔
          ¬ 5001 > 5000) ∧
        (keep_alive (4294966796 + 5001) wrap_example = wrap_example ↔ ¬ 5001 > 5000)))) :=
  ⟨by decide, elapsed_tests_wrap_around 4294966796 5001 wrap_example (by decide)⟩

/-- Claim C17. Draining a whole catalog frame through `handle_keypad_uart_data`,
from any prior operation: `CMD_UP` ends with opening, `CMD_DOWN` with closing,
`CMD_STOP` with idle; every catalog frame has `0x02` at offset 2, so every frame
writes the operation: `CMD_WAKE_UP`, `CMD_PRESET_1`, `CMD_PRESET_2` and
`CMD_PRESET_3_STAND` end with closing and `CMD_PRESET_4_SIT` with opening. -/
theorem catalog_frame_inference (s : Bridge) (keypad : UART)
    (h : s.keypad_uart_ = some keypad) :
    ∃ s', handle_keypad_uart_data s = some s' ∧
      (keypad.rx = CMD_UP → s'.current_operation = CoverOperation.opening) ∧
      (keypad.rx = CMD_DOWN → s'.current_operation = CoverOperation.closing) ∧
      (keypad.rx = CMD_STOP → s'.current_operation = CoverOperation.idle) ∧
      (keypad.rx = CMD_WAKE_UP → s'.current_operation = CoverOperation.closing) ∧
      (keypad.rx = CMD_PRESET_1 → s'.current_operation = CoverOperation.closing) ∧
      (keypad.rx = CMD_PRESET_2 → s'.current_operation = CoverOperation.closing) ∧
      (keypad.rx = CMD_PRESET_3_STAND → s'.current_operation = CoverOperation.closing) ∧
      (keypad.rx = CMD_PRESET_4_SIT → s'.current_operation = CoverOperation.opening) ∧
      (∀ frame ∈ [CMD_WAKE_UP, CMD_UP, CMD_DOWN, CMD_STOP, CMD_PRESET_1, CMD_PRESET_2,
          CMD_PRESET_3_STAND, CMD_PRESET_4_SIT], frame[2]? = some 0x02) := by
  refine ⟨keypad_relay keypad.rx keypad s, ?_, ?_, ?_, ?_, ?_, ?_, ?_, ?_, ?_, by decide⟩
  · simp [handle_keypad_uart_data, h]
  all_goals
    intro hf
    rw [keypad_relay_operation, hf]
    rfl

/-- Claim C17 at `preset_frame_bridge`: the preset frame turns opening into closing. -/
theorem catalog_frame_inference_witness :
    (preset_frame_bridge.keypad_uart_ = some { rx := CMD_PRESET_1, tx := [] } ∧
      preset_frame_bridge.current_operation = CoverOperation.opening) ∧
    ∃ s', handle_keypad_uart_data preset_frame_bridge = some s' ∧
      (CMD_PRESET_1 = CMD_UP → s'.current_operation = CoverOperation.opening) ∧
      (CMD_PRESET_1 = CMD_DOWN → s'.current_operation = CoverOperation.closing) ∧
      (CMD_PRESET_1 = CMD_STOP → s'.current_operation = CoverOperation.idle) ∧
      (CMD_PRESET_1 = CMD_WAKE_UP → s'.current_operation = CoverOperation.closing) ∧
      (CMD_PRESET_1 = CMD_PRESET_1 → s'.current_operation = CoverOperation.closing) ∧
      (CMD_PRESET_1 = CMD_PRESET_2 → s'.current_operation = CoverOperation.closing) ∧
      (CMD_PRESET_1 = CMD_PRESET_3_STAND → s'.current_operation = CoverOperation.closing) ∧
      (CMD_PRESET_1 = CMD_PRESET_4_SIT → s'.current_operation = CoverOperation.opening) ∧
      (∀ frame ∈ [CMD_WAKE_UP, CMD_UP, CMD_DOWN, CMD_STOP, CMD_PRESET_1, CMD_PRESET_2,
          CMD_PRESET_3_STAND, CMD_PRESET_4_SIT], frame[2]? = some 0x02) :=
  ⟨by decide, catalog_frame_inference preset_frame_bridge { rx := CMD_PRESET_1, tx := [] } rfl⟩

end LoctekPassthroughKeypad
